import Mathlib

/-!
Verification of the voxel world engine core: the block registry
(src/world/Block.ts), terrain generation (src/world/TerrainGenerator.ts),
chunk storage and meshing (src/world/Chunk.ts), world chunk lifecycle and
the structural-support cascade (src/world/World.ts), and entity collision
resolution (src/entities/Entity.ts).

Numbers: the source is JavaScript, where all numeric values are doubles.
Block coordinates and block types are integers throughout the engine, so
they are embedded as ℤ / ℕ; continuous quantities (entity positions,
velocities, vertex positions, brightness values) are embedded as ℚ.
JS Math.floor on a rational is Rat.floor; JS floor division and remainder
of integers are Int.fdiv and Int.tmod (the remainder takes the sign of
the dividend, exactly like the JS % operator).
-/

/-- JS Math.floor(a / b) for an integer a and positive integer b
(flooring division). -/
def jsFloorDiv (a b : ℤ) : ℤ := Int.fdiv a b

/-- The JS % operator on integers: remainder with the sign of the
dividend (truncating division). -/
def jsRem (a b : ℤ) : ℤ := Int.tmod a b

/-- JS Math.floor on a rational value. -/
def jsMathFloor (q : ℚ) : ℤ := q.floor

theorem jsMathFloor_eq_floor (q : ℚ) : jsMathFloor q = ⌊q⌋ := by
  rw [jsMathFloor, Rat.floor_def, Rat.floor_def']

/-! ## Block registry (src/world/Block.ts)

BlockType is a small integer: AIR 0, GRASS 1, DIRT 2, STONE 3, BEDROCK 4,
SAND 5, WATER 6, WOOD 7, LEAVES 8, SNOW 9. The registry is a static table
keyed by block type. An out-of-range block type is a JS runtime error in
the source (undefined property access); the embedding totalizes the
lookup with the AIR row, which no claim depends on. -/

structure BlockProps where
  uvTop : ℕ × ℕ
  uvSide : ℕ × ℕ
  uvBottom : ℕ × ℕ
  solid : Bool
  transparent : Bool
  fluid : Bool
  replaceable : Bool
  height : ℚ
  -- isSupport defaults to true and no registry row overrides it; the
  -- field is kept to mirror the source record shape.
  isSupport : Bool
  needsSupport : Bool
  supportDirs : List (ℤ × ℤ × ℤ)
deriving Repr

def airRow : BlockProps :=
  { uvTop := (0, 0), uvSide := (0, 0), uvBottom := (0, 0)
  , solid := false, transparent := true, fluid := false, replaceable := true
  , height := 1, isSupport := true, needsSupport := false, supportDirs := [] }

def blockRegistry (b : ℕ) : BlockProps :=
  if b = 1 then -- GRASS
    { uvTop := (0, 0), uvSide := (1, 0), uvBottom := (2, 0)
    , solid := true, transparent := false, fluid := false, replaceable := false
    , height := 1, isSupport := true, needsSupport := false, supportDirs := [] }
  else if b = 2 then -- DIRT
    { uvTop := (2, 0), uvSide := (2, 0), uvBottom := (2, 0)
    , solid := true, transparent := false, fluid := false, replaceable := false
    , height := 1, isSupport := true, needsSupport := false, supportDirs := [] }
  else if b = 3 then -- STONE
    { uvTop := (3, 0), uvSide := (3, 0), uvBottom := (3, 0)
    , solid := true, transparent := false, fluid := false, replaceable := false
    , height := 1, isSupport := true, needsSupport := false, supportDirs := [] }
  else if b = 4 then -- BEDROCK
    { uvTop := (0, 1), uvSide := (0, 1), uvBottom := (0, 1)
    , solid := true, transparent := false, fluid := false, replaceable := false
    , height := 1, isSupport := true, needsSupport := false, supportDirs := [] }
  else if b = 5 then -- SAND
    { uvTop := (1, 1), uvSide := (1, 1), uvBottom := (1, 1)
    , solid := true, transparent := false, fluid := false, replaceable := false
    , height := 1, isSupport := true, needsSupport := false, supportDirs := [] }
  else if b = 6 then -- WATER
    { uvTop := (2, 1), uvSide := (2, 1), uvBottom := (2, 1)
    , solid := false, transparent := true, fluid := true, replaceable := true
    , height := 1, isSupport := true, needsSupport := false, supportDirs := [] }
  else if b = 7 then -- WOOD
    { uvTop := (3, 1), uvSide := (0, 2), uvBottom := (3, 1)
    , solid := true, transparent := false, fluid := false, replaceable := false
    , height := 1, isSupport := true, needsSupport := false, supportDirs := [] }
  else if b = 8 then -- LEAVES
    { uvTop := (1, 2), uvSide := (1, 2), uvBottom := (1, 2)
    , solid := false, transparent := true, fluid := false, replaceable := false
    , height := 1, isSupport := true, needsSupport := false, supportDirs := [] }
  else if b = 9 then -- SNOW: partial block, needs support from below only
    { uvTop := (2, 2), uvSide := (2, 2), uvBottom := (2, 2)
    , solid := false, transparent := false, fluid := false, replaceable := false
    , height := 2/16, isSupport := true, needsSupport := true
    , supportDirs := [(0, -1, 0)] }
  else -- AIR (0); also the totalizing default for out-of-range types
    airRow

def isBlockSolid (b : ℕ) : Bool := (blockRegistry b).solid

def isBlockTransparent (b : ℕ) : Bool := (blockRegistry b).transparent

def isBlockWater (b : ℕ) : Bool := (blockRegistry b).fluid

def isBlockReplaceable (b : ℕ) : Bool := (blockRegistry b).replaceable

def getBlockHeight (b : ℕ) : ℚ := (blockRegistry b).height

def isPartialBlock (b : ℕ) : Bool :=
  decide (getBlockHeight b < 1) && decide (b ≠ 0)

/-- isBlockSupport: AIR can never support; every other registry row uses
the defaulted isSupport = true. -/
def isBlockSupport (b : ℕ) : Bool :=
  if b = 0 then false else (blockRegistry b).isSupport

def blockNeedsSupport (b : ℕ) : Bool := (blockRegistry b).needsSupport

def getBlockSupportDirections (b : ℕ) : List (ℤ × ℤ × ℤ) :=
  (blockRegistry b).supportDirs

/-- Texture atlas: 4x4 grid, TILE_SIZE = 1/4 (src/utils/constants.ts). -/
def TILE_SIZE : ℚ := 1/4

inductive FaceKind | top | side | bottom
deriving DecidableEq, Repr

def BlockProps.uvOf (p : BlockProps) : FaceKind → ℕ × ℕ
  | .top => p.uvTop
  | .side => p.uvSide
  | .bottom => p.uvBottom

/-- getBlockUVs: atlas rectangle (u1, v1, u2, v2) for a block face, with
the v axis flipped. -/
def getBlockUVs (b : ℕ) (f : FaceKind) : ℚ × ℚ × ℚ × ℚ :=
  let uv := (blockRegistry b).uvOf f
  let u : ℚ := (uv.1 : ℚ) * TILE_SIZE
  let v : ℚ := 1 - ((uv.2 : ℚ) + 1) * TILE_SIZE
  (u, v, u + TILE_SIZE, v + TILE_SIZE)

/-! ## Terrain generator (src/world/TerrainGenerator.ts)

The source builds two simplex-noise functions from a seeded
linear-congruential random source. The simplex-noise package is external
third-party code that is not part of this repository. -/

def SEA_LEVEL : ℤ := 25

/-- The LCG step of createSeededRandom:
seed = (seed * 9301 + 49297) % 233280 (JS remainder). -/
def lcgNext (s : ℤ) : ℤ := jsRem (s * 9301 + 49297) 233280

/-- Modelled from the spec: the external simplex-noise createNoise2D
deterministically builds its permutation tables by drawing from the
supplied seeded random source and afterwards is a pure function. It is
modelled as consuming one LCG draw and returning a pure noise function
determined by that draw, together with the advanced LCG state. -/
def createNoise2D (r : ℤ) : (ℚ → ℚ → ℚ) × ℤ :=
  (fun _ _ => ((lcgNext r : ℤ) : ℚ) / 233280 * 2 - 1, lcgNext r)

/-- Modelled from the spec: as createNoise2D, for the 3D noise function
consumed by cave carving. -/
def createNoise3D (r : ℤ) : (ℚ → ℚ → ℚ → ℚ) × ℤ :=
  (fun _ _ _ => ((lcgNext r : ℤ) : ℚ) / 233280 * 2 - 1, lcgNext r)

/-- The state of a TerrainGenerator after initNoise: the stored seed and
the two noise functions, which are pure once constructed. getBlock and
getHeight only read this state and never write it. -/
structure TerrainGen where
  seed : ℤ
  noise2D : ℚ → ℚ → ℚ
  noise3D : ℚ → ℚ → ℚ → ℚ

/-- setSeed(seed): stores the seed and reinitializes both noise functions
from one shared seeded random source (noise3D consumes the LCG state left
behind by the construction of noise2D). -/
def TerrainGen.setSeed (s : ℤ) : TerrainGen :=
  let p2 := createNoise2D s
  let p3 := createNoise3D p2.2
  { seed := s, noise2D := p2.1, noise3D := p3.1 }

/-- getHeight: three noise octaves (amplitudes 20, 10, 3) plus offset 30,
floored. -/
def TerrainGen.getHeight (tg : TerrainGen) (worldX worldZ : ℤ) : ℤ :=
  jsMathFloor
    (tg.noise2D ((worldX : ℚ) * (1/100)) ((worldZ : ℚ) * (1/100)) * 20
      + tg.noise2D ((worldX : ℚ) * (3/100)) ((worldZ : ℚ) * (3/100)) * 10
      + tg.noise2D ((worldX : ℚ) * (1/10)) ((worldZ : ℚ) * (1/10)) * 3
      + 30)

/-- getBlock: pure deterministic block assignment at a world coordinate. -/
def TerrainGen.getBlock (tg : TerrainGen) (worldX worldY worldZ : ℤ) : ℕ :=
  let surfaceHeight := tg.getHeight worldX worldZ
  if worldY < 0 then 4 -- BEDROCK below world
  else if worldY > surfaceHeight then
    (if worldY ≤ SEA_LEVEL then 6 else 0) -- WATER up to sea level, else AIR
  else if worldY ≤ 1 then 4 -- BEDROCK layer
  else if tg.noise3D ((worldX : ℚ) * (1/20)) ((worldY : ℚ) * (1/20))
            ((worldZ : ℚ) * (1/20)) > 3/5
          ∧ worldY < surfaceHeight - 5 ∧ worldY > 5 then 0 -- cave
  else if worldY = surfaceHeight then
    (if surfaceHeight < 25 then 5 else 1) -- SAND beach or GRASS
  else if worldY ≥ surfaceHeight - 3 then 2 -- DIRT
  else 3 -- STONE

/-! ## Chunk voxel storage (src/world/Chunk.ts)

A chunk owns a dense Uint8Array of CHUNK_WIDTH * CHUNK_HEIGHT *
CHUNK_DEPTH = 16 * 64 * 16 bytes addressed by the linear index
getIndex. The array is embedded as a total function from the linear
index; the index-safety claim shows in-range accesses only. The chunk
also holds render meshes and a borrowed worldBlockGetter closure; the
meshes are modelled in the meshing section and the closure is passed
explicitly as a function argument. -/

def CHUNK_WIDTH : ℤ := 16
def CHUNK_HEIGHT : ℤ := 64
def CHUNK_DEPTH : ℤ := 16
def RENDER_DISTANCE : ℤ := 3

/-- getIndex(x, y, z) = y * W * D + z * W + x. -/
def getIndex (x y z : ℤ) : ℤ :=
  y * CHUNK_WIDTH * CHUNK_DEPTH + z * CHUNK_WIDTH + x

structure Chunk where
  chunkX : ℤ
  chunkZ : ℤ
  blocks : ℤ → ℕ
  -- true once buildMesh has run for this chunk (the source holds the
  -- actual THREE.Mesh objects; the voxel model keeps only the flag)
  meshed : Bool

/-- getBlockLocal: read the raw array with no bounds check and no
cross-chunk delegation. -/
def Chunk.getBlockLocal (c : Chunk) (x y z : ℤ) : ℕ :=
  c.blocks (getIndex x y z)

/-- Chunk.getBlock: in-range local reads hit the array; out-of-range
reads delegate to the injected world block getter at the corresponding
world coordinate. The getter closure field is passed explicitly here. -/
def Chunk.getBlockWith (c : Chunk) (getter : ℤ → ℤ → ℤ → ℕ)
    (x y z : ℤ) : ℕ :=
  if x < 0 ∨ x ≥ CHUNK_WIDTH ∨ y < 0 ∨ y ≥ CHUNK_HEIGHT
      ∨ z < 0 ∨ z ≥ CHUNK_DEPTH then
    getter (c.chunkX * CHUNK_WIDTH + x) y (c.chunkZ * CHUNK_DEPTH + z)
  else
    c.getBlockLocal x y z

/-- Chunk.setBlock: out-of-range writes are a silent no-op; in-range
writes update the single array cell. -/
def Chunk.setBlock (c : Chunk) (x y z : ℤ) (t : ℕ) : Chunk :=
  if x < 0 ∨ x ≥ CHUNK_WIDTH ∨ y < 0 ∨ y ≥ CHUNK_HEIGHT
      ∨ z < 0 ∨ z ≥ CHUNK_DEPTH then
    c
  else
    { c with blocks := fun i => if i = getIndex x y z then t else c.blocks i }

/-- Chunk.generate: fill the whole array from the terrain generator.
The loop writes blocks[getIndex x y z] = terrain(offX + x, y, offZ + z);
the embedding inverts getIndex (x = i mod 16, z = i / 16 mod 16,
y = i / 256). Cells outside the array keep the Uint8Array default 0. -/
def Chunk.generate (tg : TerrainGen) (cx cz : ℤ) : Chunk :=
  { chunkX := cx, chunkZ := cz, meshed := false
  , blocks := fun i =>
      if 0 ≤ i ∧ i < CHUNK_WIDTH * CHUNK_HEIGHT * CHUNK_DEPTH then
        tg.getBlock (cx * CHUNK_WIDTH + i.emod 16) (i.ediv 256)
          (cz * CHUNK_DEPTH + (i.ediv 16).emod 16)
      else 0 }

/-! ## World (src/world/World.ts)

The world owns a map from chunk coordinates to chunks. The source keys
the map by the string "cx,cz"; the embedding keys it by the pair, which
the string encodes injectively. The scene and raycaster are rendering
state outside this model. -/

structure WorldState where
  chunks : ℤ → ℤ → Option Chunk
  tg : TerrainGen

/-- One axis of worldToChunk: Math.floor(worldX / CHUNK_WIDTH). -/
def worldChunkCoord (w : ℤ) : ℤ := jsFloorDiv w CHUNK_WIDTH

/-- One horizontal axis of worldToLocal:
((worldX % CHUNK_WIDTH) + CHUNK_WIDTH) % CHUNK_WIDTH. -/
def worldLocalCoord (w : ℤ) : ℤ :=
  jsRem (jsRem w CHUNK_WIDTH + CHUNK_WIDTH) CHUNK_WIDTH

/-- World.getBlockForChunk: the cross-chunk neighbor lookup injected into
chunks. Out-of-range Y and unloaded chunks fall back to a fresh terrain
sample; otherwise it reads the chunk's raw array via getBlockLocal. -/
def World.getBlockForChunk (st : WorldState) (worldX worldY worldZ : ℤ) : ℕ :=
  if worldY < 0 ∨ worldY ≥ CHUNK_HEIGHT then
    st.tg.getBlock worldX worldY worldZ
  else
    match st.chunks (worldChunkCoord worldX) (worldChunkCoord worldZ) with
    | none => st.tg.getBlock worldX worldY worldZ
    | some c =>
        c.getBlockLocal (worldLocalCoord worldX) worldY (worldLocalCoord worldZ)

/-- World.getBlock: the public query. Math.floor on the already-integer
inputs is the identity. An unloaded chunk yields AIR; a loaded chunk
answers through Chunk.getBlock, whose injected getter is
World.getBlockForChunk. -/
def World.getBlock (st : WorldState) (worldX worldY worldZ : ℤ) : ℕ :=
  match st.chunks (worldChunkCoord worldX) (worldChunkCoord worldZ) with
  | none => 0
  | some c =>
      c.getBlockWith (World.getBlockForChunk st)
        (worldLocalCoord worldX) worldY (worldLocalCoord worldZ)

def World.isBlockSolidAt (st : WorldState) (x y z : ℤ) : Bool :=
  isBlockSolid (World.getBlock st x y z)

def World.isBlockWaterAt (st : WorldState) (x y z : ℤ) : Bool :=
  isBlockWater (World.getBlock st x y z)

/-! ## Mutation with the structural-support cascade (src/world/World.ts)

setBlock writes to the owning chunk and, when the written type is AIR,
runs breakUnsupportedBlocks: each of the six face neighbors whose block
needsSupport and has no isBlockSupport-capable block in any of its
supportDirections is itself broken (breakBlockWithCascade), and the check
recurses from the newly-broken position. The chunksToRebuild working-set
and the buildMesh calls only rebuild render geometry and never change
voxel data, so the voxel model omits them.

The two source functions recurse into each other without a structural
bound; the embedding gives them a fuel parameter that is consumed once
per breakBlockWithCascade call (each such call turns one non-air block
into air, the measure that makes the source terminate). A none result
means the fuel ran out. -/

def ADJACENT_DIRECTIONS : List (ℤ × ℤ × ℤ) :=
  [(0, 1, 0), (0, -1, 0), (1, 0, 0), (-1, 0, 0), (0, 0, 1), (0, 0, -1)]

/-- World.hasValidSupport: does any declared support direction of this
block point at an isBlockSupport-capable block? -/
def World.hasValidSupport (st : WorldState) (worldX worldY worldZ : ℤ)
    (blockType : ℕ) : Bool :=
  (getBlockSupportDirections blockType).any fun d =>
    isBlockSupport
      (World.getBlock st (worldX + d.1) (worldY + d.2.1) (worldZ + d.2.2))

/-- The chunk write shared by setBlock and breakBlockWithCascade:
worldToLocal, map lookup (no-op when the chunk is unloaded), then
Chunk.setBlock on the owning chunk. -/
def World.writeChunkBlock (st : WorldState) (worldX worldY worldZ : ℤ)
    (t : ℕ) : WorldState :=
  match st.chunks (worldChunkCoord worldX) (worldChunkCoord worldZ) with
  | none => st
  | some c =>
      { st with chunks := fun a b =>
          if a = worldChunkCoord worldX ∧ b = worldChunkCoord worldZ then
            some (c.setBlock (worldLocalCoord worldX) worldY
              (worldLocalCoord worldZ) t)
          else st.chunks a b }

/-- The mutually recursive pair breakUnsupportedBlocks /
breakBlockWithCascade, flattened over the remaining direction list.
For each direction: read the neighbor; if it needs support and has none,
run breakBlockWithCascade there (inlined: return unchanged when the
neighbor's chunk is unloaded, otherwise write AIR and recurse over all
six directions from the broken position with one unit of fuel consumed),
then continue with the remaining directions. -/
def World.breakUnsupGo (fuel : ℕ) (st : WorldState) (x y z : ℤ)
    (dirs : List (ℤ × ℤ × ℤ)) : Option WorldState :=
  match dirs with
  | [] => some st
  | d :: rest =>
      let qx := x + d.1
      let qy := y + d.2.1
      let qz := z + d.2.2
      let b := World.getBlock st qx qy qz
      if blockNeedsSupport b = true
          ∧ ¬ World.hasValidSupport st qx qy qz b = true then
        if (st.chunks (worldChunkCoord qx) (worldChunkCoord qz)).isNone then
          -- breakBlockWithCascade returns early when the chunk is unloaded
          World.breakUnsupGo fuel st x y z rest
        else
          match fuel with
          | 0 => none
          | f + 1 =>
              let st' := World.writeChunkBlock st qx qy qz 0
              match World.breakUnsupGo f st' qx qy qz ADJACENT_DIRECTIONS with
              | none => none
              | some st'' => World.breakUnsupGo (f + 1) st'' x y z rest
      else
        World.breakUnsupGo fuel st x y z rest
termination_by (fuel, dirs.length)
decreasing_by
  all_goals simp_wf
  all_goals first
    | (apply Prod.Lex.left; omega)
    | (apply Prod.Lex.right; simp)

/-- breakUnsupportedBlocks(brokenX, brokenY, brokenZ): check all six
face-adjacent positions of a broken block. -/
def World.breakUnsupportedBlocks (fuel : ℕ) (st : WorldState)
    (x y z : ℤ) : Option WorldState :=
  World.breakUnsupGo fuel st x y z ADJACENT_DIRECTIONS

/-- World.setBlock: Math.floor on the already-integer inputs is the
identity. Unloaded target chunk: silent no-op. Otherwise write the block;
when the written type is AIR, run the support cascade. The mesh rebuild
of affected and edge-adjacent chunks changes no voxel and is omitted. -/
def World.setBlock (fuel : ℕ) (st : WorldState) (worldX worldY worldZ : ℤ)
    (blockType : ℕ) : Option WorldState :=
  match st.chunks (worldChunkCoord worldX) (worldChunkCoord worldZ) with
  | none => some st
  | some _ =>
      let st1 := World.writeChunkBlock st worldX worldY worldZ blockType
      if blockType = 0 then
        World.breakUnsupportedBlocks fuel st1 worldX worldY worldZ
      else
        some st1

/-! ## Chunk lifecycle (World.update) -/

/-- World.update(playerX, playerZ). In edge-world mode only chunk (0,0)
is ensured. Otherwise: the load loop creates, meshes and registers every
missing chunk with per-axis offset at most RENDER_DISTANCE from the
player's chunk, and the unload loop removes every chunk whose offset on
either axis exceeds RENDER_DISTANCE + 1. Both source loops touch each
map key at most once, so they are embedded pointwise. Scene add/remove
and geometry disposal are rendering effects outside the voxel model;
the buildMesh call on a fresh chunk is recorded in its meshed flag. -/
def World.update (isEdgeWorld : Bool) (st : WorldState) (playerX playerZ : ℚ) :
    WorldState :=
  if isEdgeWorld then
    match st.chunks 0 0 with
    | some _ => st
    | none =>
        { st with chunks := fun a b =>
            if a = 0 ∧ b = 0 then
              some { Chunk.generate st.tg 0 0 with meshed := true }
            else st.chunks a b }
  else
    let playerChunkX := jsMathFloor (playerX / (CHUNK_WIDTH : ℚ))
    let playerChunkZ := jsMathFloor (playerZ / (CHUNK_DEPTH : ℚ))
    let afterLoad : ℤ → ℤ → Option Chunk := fun cx cz =>
      if playerChunkX - RENDER_DISTANCE ≤ cx ∧ cx ≤ playerChunkX + RENDER_DISTANCE
          ∧ playerChunkZ - RENDER_DISTANCE ≤ cz ∧ cz ≤ playerChunkZ + RENDER_DISTANCE then
        match st.chunks cx cz with
        | some c => some c
        | none => some { Chunk.generate st.tg cx cz with meshed := true }
      else st.chunks cx cz
    { st with chunks := fun cx cz =>
        if RENDER_DISTANCE + 1 < |cx - playerChunkX|
            ∨ RENDER_DISTANCE + 1 < |cz - playerChunkZ| then
          none
        else afterLoad cx cz }

/-! ## Chunk meshing (src/world/Chunk.ts)

buildMesh walks every voxel (x outer, y middle, z inner), evaluates the
six axis faces, decides visibility, and appends visible faces to either
the solid or the water geometry via addFace. Since each face goes wholly
to exactly one of the two buffer sets and the two accumulations are
independent, the loop is embedded as: the ordered list of emitted
(cell, face) pairs, split into its solid and water subsequences, each
folded through addFace with its own running vertex index (the source's
solidVertexIndex / waterVertexIndex, which advance by 4 per face). -/

/-- AO levels: index 0 = bright, 3 = darkest. -/
def AO_CURVE : List ℚ := [1, 3/4, 1/2, 3/10]

structure FaceDescriptor where
  dir : ℤ × ℤ × ℤ
  verts : List (ℚ × ℚ × ℚ)
  uvFace : FaceKind
  brightness : ℚ

def FACES : List FaceDescriptor :=
  [ { dir := (0, 1, 0), verts := [(0, 1, 1), (1, 1, 1), (1, 1, 0), (0, 1, 0)]
    , uvFace := .top, brightness := 1 }        -- +Y top
  , { dir := (0, -1, 0), verts := [(0, 0, 0), (1, 0, 0), (1, 0, 1), (0, 0, 1)]
    , uvFace := .bottom, brightness := 1/2 }   -- -Y bottom
  , { dir := (0, 0, 1), verts := [(0, 0, 1), (1, 0, 1), (1, 1, 1), (0, 1, 1)]
    , uvFace := .side, brightness := 4/5 }     -- +Z south
  , { dir := (0, 0, -1), verts := [(1, 0, 0), (0, 0, 0), (0, 1, 0), (1, 1, 0)]
    , uvFace := .side, brightness := 4/5 }     -- -Z north
  , { dir := (1, 0, 0), verts := [(1, 0, 1), (1, 0, 0), (1, 1, 0), (1, 1, 1)]
    , uvFace := .side, brightness := 3/5 }     -- +X east
  , { dir := (-1, 0, 0), verts := [(0, 0, 0), (0, 0, 1), (0, 1, 1), (0, 1, 0)]
    , uvFace := .side, brightness := 3/5 } ]   -- -X west

def faceAt (fi : ℕ) : FaceDescriptor :=
  FACES.getD fi { dir := (0, 0, 0), verts := [], uvFace := .top, brightness := 0 }

/-- isBlockOccluding: solid-for-AO test. The source floors its number
arguments; every call site passes integers, on which Math.floor is the
identity. Air, transparent and partial blocks do not occlude. -/
def Chunk.isBlockOccluding (c : Chunk) (g : ℤ → ℤ → ℤ → ℕ)
    (x y z : ℤ) : Bool :=
  let b := c.getBlockWith g x y z
  if b = 0 || isBlockTransparent b then false
  else if isPartialBlock b then false
  else true

/-- calculateVertexAO: pick the face-plane tangents, orient them toward
the vertex corner (relative to the block center, whose Y uses the actual
block height), sample the two edge neighbors and the corner neighbor one
step along the face normal, and apply the classic rule: both edges
blocking forces level 3, otherwise the occlusion count 0-3. -/
def Chunk.calculateVertexAO (c : Chunk) (g : ℤ → ℤ → ℤ → ℕ)
    (blockX blockY blockZ : ℤ) (n : ℤ × ℤ × ℤ) (v : ℚ × ℚ × ℚ)
    (blockHeight : ℚ) : ℕ :=
  let nx := n.1; let ny := n.2.1; let nz := n.2.2
  let t1 : ℤ × ℤ × ℤ := if ny ≠ 0 then (1, 0, 0)
    else if nx ≠ 0 then (0, 1, 0) else (1, 0, 0)
  let t2 : ℤ × ℤ × ℤ := if ny ≠ 0 then (0, 0, 1)
    else if nx ≠ 0 then (0, 0, 1) else (0, 1, 0)
  let cx : ℚ := (blockX : ℚ) + 1/2
  let cy : ℚ := (blockY : ℚ) + blockHeight / 2
  let cz : ℚ := (blockZ : ℚ) + 1/2
  let d1 : ℚ := (v.1 - cx) * (t1.1 : ℚ) + (v.2.1 - cy) * (t1.2.1 : ℚ)
    + (v.2.2 - cz) * (t1.2.2 : ℚ)
  let d2 : ℚ := (v.1 - cx) * (t2.1 : ℚ) + (v.2.1 - cy) * (t2.2.1 : ℚ)
    + (v.2.2 - cz) * (t2.2.2 : ℚ)
  let s1 : ℤ := if d1 > 0 then 1 else -1
  let s2 : ℤ := if d2 > 0 then 1 else -1
  let baseX := blockX + nx
  let baseY := blockY + ny
  let baseZ := blockZ + nz
  let side1 := c.isBlockOccluding g (baseX + s1 * t1.1) (baseY + s1 * t1.2.1)
    (baseZ + s1 * t1.2.2)
  let side2 := c.isBlockOccluding g (baseX + s2 * t2.1) (baseY + s2 * t2.2.1)
    (baseZ + s2 * t2.2.2)
  let corner := c.isBlockOccluding g (baseX + s1 * t1.1 + s2 * t2.1)
    (baseY + s1 * t1.2.1 + s2 * t2.2.1) (baseZ + s1 * t1.2.2 + s2 * t2.2.2)
  if side1 && side2 then 3
  else (if side1 then 1 else 0) + (if side2 then 1 else 0)
    + (if corner then 1 else 0)

/-- The per-vertex AO values of one face quad, in vertex order; water
faces skip AO entirely (level 0 = full brightness). -/
def Chunk.faceAOs (c : Chunk) (g : ℤ → ℤ → ℤ → ℕ)
    (blockX blockY blockZ : ℤ) (n : ℤ × ℤ × ℤ) (verts : List (ℚ × ℚ × ℚ))
    (isWater : Bool) (blockHeight : ℚ) : List ℕ :=
  verts.map fun v =>
    if isWater then 0
    else c.calculateVertexAO blockX blockY blockZ n v blockHeight (g := g)

structure FaceData where
  positions : List ℚ
  normals : List ℚ
  uvs : List ℚ
  colors : List ℚ
  indices : List ℕ

/-- addFace: push 4 vertex positions, 4 copies of the face normal, the
atlas UV rectangle, 4 AO-shaded grayscale colors, and 6 triangle indices
whose diagonal is chosen by comparing the AO sums of the two opposite
corner pairs (the AO flip fix). -/
def Chunk.addFace (c : Chunk) (g : ℤ → ℤ → ℤ → ℕ) (startIndex : ℕ)
    (verts : List (ℚ × ℚ × ℚ)) (normal : ℤ × ℤ × ℤ) (faceBrightness : ℚ)
    (blockType : ℕ) (uvFace : FaceKind) (blockX blockY blockZ : ℤ)
    (isWater : Bool) (blockHeight : ℚ) : FaceData :=
  let aoValues := c.faceAOs g blockX blockY blockZ normal verts isWater blockHeight
  let uvr := getBlockUVs blockType uvFace
  { positions := verts.flatMap fun v => [v.1, v.2.1, v.2.2]
  , normals := (List.replicate 4 normal).flatMap fun n =>
      [(n.1 : ℚ), (n.2.1 : ℚ), (n.2.2 : ℚ)]
  , uvs := [uvr.1, uvr.2.1, uvr.2.2.1, uvr.2.1, uvr.2.2.1, uvr.2.2.2,
      uvr.1, uvr.2.2.2]
  , colors := aoValues.flatMap fun ao =>
      let brightness := faceBrightness * AO_CURVE.getD ao 0
      [brightness, brightness, brightness]
  , indices :=
      if aoValues.getD 0 0 + aoValues.getD 2 0
          > aoValues.getD 1 0 + aoValues.getD 3 0 then
        [startIndex + 1, startIndex + 2, startIndex + 3,
         startIndex + 1, startIndex + 3, startIndex]
      else
        [startIndex, startIndex + 1, startIndex + 2,
         startIndex, startIndex + 2, startIndex + 3] }

/-- Face visibility for the block at local cell (x, y, z) toward face fi:
water renders only against AIR, partial blocks never cull, full blocks
cull against non-transparent neighbors. -/
def Chunk.faceVisible (c : Chunk) (g : ℤ → ℤ → ℤ → ℕ)
    (x y z : ℕ) (fi : ℕ) : Bool :=
  let blockType := c.getBlockWith g x y z
  let d := (faceAt fi).dir
  let neighbor := c.getBlockWith g ((x : ℤ) + d.1) ((y : ℤ) + d.2.1)
    ((z : ℤ) + d.2.2)
  if isBlockWater blockType then decide (neighbor = 0)
  else if isPartialBlock blockType then true
  else isBlockTransparent neighbor

/-- The buildMesh loop cells in iteration order (x outer, y, z inner). -/
def chunkCells : List (ℕ × ℕ × ℕ) :=
  (List.range 16).flatMap fun x =>
    (List.range 64).flatMap fun y =>
      (List.range 16).map fun z => (x, y, z)

/-- All (cell, face index) pairs that buildMesh emits, in emission order:
non-air blocks only, visible faces only. -/
def Chunk.emittedFaces (c : Chunk) (g : ℤ → ℤ → ℤ → ℕ) :
    List (ℕ × ℕ × ℕ × ℕ) :=
  chunkCells.flatMap fun cell =>
    (List.range 6).filterMap fun fi =>
      if c.getBlockWith g cell.1 cell.2.1 cell.2.2 ≠ 0
          ∧ c.faceVisible g cell.1 cell.2.1 cell.2.2 fi = true then
        some (cell.1, cell.2.1, cell.2.2, fi)
      else none

/-- The subsequence of emitted faces accumulated into the solid buffers. -/
def Chunk.emittedSolidFaces (c : Chunk) (g : ℤ → ℤ → ℤ → ℕ) :
    List (ℕ × ℕ × ℕ × ℕ) :=
  (c.emittedFaces g).filter fun q => !isBlockWater (c.getBlockWith g q.1 q.2.1 q.2.2.1)

/-- The subsequence of emitted faces accumulated into the water buffers. -/
def Chunk.emittedWaterFaces (c : Chunk) (g : ℤ → ℤ → ℤ → ℕ) :
    List (ℕ × ℕ × ℕ × ℕ) :=
  (c.emittedFaces g).filter fun q => isBlockWater (c.getBlockWith g q.1 q.2.1 q.2.2.1)

/-- The transformed quad vertices of one face: x and z offset into the
cell, y scaled by the block height. -/
def faceVerts (x y z : ℕ) (fi : ℕ) (height : ℚ) : List (ℚ × ℚ × ℚ) :=
  (faceAt fi).verts.map fun v =>
    ((x : ℚ) + v.1, (y : ℚ) + v.2.1 * height, (z : ℚ) + v.2.2)

structure Buffers where
  positions : List ℚ
  normals : List ℚ
  uvs : List ℚ
  colors : List ℚ
  indices : List ℕ

def Buffers.empty : Buffers :=
  { positions := [], normals := [], uvs := [], colors := [], indices := [] }

def Buffers.append (b : Buffers) (f : FaceData) : Buffers :=
  { positions := b.positions ++ f.positions
  , normals := b.normals ++ f.normals
  , uvs := b.uvs ++ f.uvs
  , colors := b.colors ++ f.colors
  , indices := b.indices ++ f.indices }

/-- Fold one sub-stream of emitted faces through addFace, threading the
running vertex index that grows by 4 per face. -/
def Chunk.buildBuffers (c : Chunk) (g : ℤ → ℤ → ℤ → ℕ)
    (faces : List (ℕ × ℕ × ℕ × ℕ)) : Buffers :=
  (faces.foldl (fun acc q =>
    let x : ℕ := q.1; let y : ℕ := q.2.1
    let z : ℕ := q.2.2.1; let fi : ℕ := q.2.2.2
    let blockType := c.getBlockWith g (x : ℤ) (y : ℤ) (z : ℤ)
    let isWater := isBlockWater blockType
    let height := getBlockHeight blockType
    let face := faceAt fi
    let fd := c.addFace g acc.2 (faceVerts x y z fi height) face.dir
      face.brightness blockType face.uvFace (x : ℤ) (y : ℤ) (z : ℤ)
      isWater height
    (acc.1.append fd, acc.2 + 4)) (Buffers.empty, 0)).1

/-- The solid geometry buffers produced by one buildMesh call. -/
def Chunk.buildMeshSolid (c : Chunk) (g : ℤ → ℤ → ℤ → ℕ) : Buffers :=
  c.buildBuffers g (c.emittedSolidFaces g)

/-- The water geometry buffers produced by one buildMesh call. -/
def Chunk.buildMeshWater (c : Chunk) (g : ℤ → ℤ → ℤ → ℕ) : Buffers :=
  c.buildBuffers g (c.emittedWaterFaces g)

/-- A chunk together with its render meshes, as held by the source
Chunk object (mesh / waterMesh are null until the first buildMesh). -/
structure RenderChunk where
  data : Chunk
  mesh : Option Buffers
  waterMesh : Option Buffers

/-- buildMesh as the source runs it: recompute both geometry sets from
the voxel data and the neighbor getter, and replace the held meshes
wholesale (the old geometry is disposed). -/
def RenderChunk.buildMesh (rc : RenderChunk) (g : ℤ → ℤ → ℤ → ℕ) :
    RenderChunk :=
  { rc with
    mesh := some (rc.data.buildMeshSolid g),
    waterMesh := some (rc.data.buildMeshWater g) }

/-! ## Entity collision (src/entities/Entity.ts, src/utils/coords.ts) -/

def GRAVITY : ℚ := 20

/-- getBlockBounds: the inclusive block-coordinate range covered by the
entity's AABB (floor of min and of max on every axis). -/
def getBlockBounds (px py pz halfWidth height : ℚ) : ℤ × ℤ × ℤ × ℤ × ℤ × ℤ :=
  (jsMathFloor (px - halfWidth), jsMathFloor (px + halfWidth),
   jsMathFloor py, jsMathFloor (py + height),
   jsMathFloor (pz - halfWidth), jsMathFloor (pz + halfWidth))

/-- The integers lo..hi inclusive, in ascending order (the for loops of
checkCollision). -/
def intRange (lo hi : ℤ) : List ℤ :=
  (List.range (hi + 1 - lo).toNat).map fun i => lo + (i : ℤ)

structure Entity where
  px : ℚ
  py : ℚ
  pz : ℚ
  vx : ℚ
  vy : ℚ
  vz : ℚ
  width : ℚ
  height : ℚ
  grounded : Bool

/-- Entity.checkCollision at an explicit position (the source reads
this.position; resolveCollisions probes it at intermediate positions,
which the embedding passes explicitly): true iff any block in the AABB's
inclusive block range is solid in the world. -/
def checkCollisionAt (st : WorldState) (px py pz width height : ℚ) : Bool :=
  let halfWidth := width / 2
  let b := getBlockBounds px py pz halfWidth height
  let minX := b.1; let maxX := b.2.1
  let minY := b.2.2.1; let maxY := b.2.2.2.1
  let minZ := b.2.2.2.2.1; let maxZ := b.2.2.2.2.2
  (intRange minX maxX).any fun x =>
    (intRange minY maxY).any fun y =>
      (intRange minZ maxZ).any fun z =>
        World.isBlockSolidAt st x y z

def Entity.checkCollision (st : WorldState) (e : Entity) : Bool :=
  checkCollisionAt st e.px e.py e.pz e.width e.height

/-- The result of resolveCollisions, with one flag per axis collision
branch taken, plus the downward-Y sub-case (needed to state the claims;
the source communicates these only through its side effects). -/
structure ResolveOut where
  entity : Entity
  collX : Bool
  collY : Bool
  downY : Bool
  collZ : Bool

/-- Entity.resolveCollisions: move X, undo and zero on collision; move Y,
snap to floor(y) + 1.001 and ground when falling, undo when rising, zero
vy on any Y collision, clear grounded when falling freely; move Z, undo
and zero on collision. -/
def Entity.resolveCollisions (st : WorldState) (e : Entity) (dt : ℚ) :
    ResolveOut :=
  -- move X
  let x1 := e.px + e.vx * dt
  let hitX := checkCollisionAt st x1 e.py e.pz e.width e.height
  let px' := if hitX then x1 - e.vx * dt else x1
  let vx' := if hitX then 0 else e.vx
  -- move Y (gravity)
  let y1 := e.py + e.vy * dt
  let hitY := checkCollisionAt st px' y1 e.pz e.width e.height
  let downY := hitY && decide (e.vy < 0)
  let py' := if hitY then
      (if e.vy < 0 then (jsMathFloor y1 : ℚ) + 1001/1000 else y1 - e.vy * dt)
    else y1
  let vy' := if hitY then 0 else e.vy
  let grounded' := if hitY then (if e.vy < 0 then true else e.grounded)
    else false
  -- move Z
  let z1 := e.pz + e.vz * dt
  let hitZ := checkCollisionAt st px' py' z1 e.width e.height
  let pz' := if hitZ then z1 - e.vz * dt else z1
  let vz' := if hitZ then 0 else e.vz
  { entity := { e with
      px := px', py := py', pz := pz', vx := vx', vy := vy', vz := vz',
      grounded := grounded' },
    collX := hitX, collY := hitY, downY := downY, collZ := hitZ }

/-! ## Groundwork: coordinate arithmetic and registry facts -/

theorem jsRem16_lower (x : ℤ) : -16 < jsRem x 16 := by
  unfold jsRem
  cases x with
  | ofNat m =>
      have h := Int.tmod_nonneg (a := Int.ofNat m) 16 (Int.ofNat_nonneg m)
      omega
  | negSucc m =>
      have h : Int.tmod (Int.negSucc m) 16 = -(((m + 1) % 16 : ℕ) : ℤ) := rfl
      have h2 : (m + 1) % 16 < 16 := Nat.mod_lt _ (by omega)
      omega

theorem jsRem16_upper (x : ℤ) : jsRem x 16 < 16 :=
  Int.tmod_lt_of_pos x (by omega)

/-- The JS double-remainder local-coordinate trick equals the Euclidean
remainder. -/
theorem worldLocalCoord_eq (x : ℤ) : worldLocalCoord x = x % 16 := by
  unfold worldLocalCoord CHUNK_WIDTH
  have hlow := jsRem16_lower x
  have hhigh := jsRem16_upper x
  have houter : jsRem (jsRem x 16 + 16) 16 = (jsRem x 16 + 16) % 16 := by
    unfold jsRem
    exact Int.tmod_eq_emod (by unfold jsRem at hlow; omega) (by omega)
  rw [houter]
  have hd : jsRem x 16 = x - 16 * x.tdiv 16 := Int.tmod_def x 16
  omega

/-- JS Math.floor(x / 16) on an integer equals the Euclidean quotient. -/
theorem worldChunkCoord_eq (x : ℤ) : worldChunkCoord x = x / 16 := by
  unfold worldChunkCoord jsFloorDiv CHUNK_WIDTH
  exact Int.fdiv_eq_ediv x (by omega)

theorem worldLocalCoord_nonneg (x : ℤ) : 0 ≤ worldLocalCoord x := by
  rw [worldLocalCoord_eq]; omega

theorem worldLocalCoord_lt (x : ℤ) : worldLocalCoord x < 16 := by
  rw [worldLocalCoord_eq]; omega

/-- A world coordinate decomposes as 16 * chunk + local. -/
theorem worldCoord_decomp (x : ℤ) :
    16 * worldChunkCoord x + worldLocalCoord x = x := by
  rw [worldChunkCoord_eq, worldLocalCoord_eq]
  omega

/-- Out-of-range block types fall through every registry row. -/
theorem blockRegistry_default (n : ℕ) : blockRegistry (n + 10) = airRow := by
  unfold blockRegistry
  split_ifs <;> first | rfl | omega

theorem blockNeedsSupport_iff (b : ℕ) : blockNeedsSupport b = true ↔ b = 9 := by
  match b with
  | 0 | 1 | 2 | 3 | 4 | 5 | 6 | 7 | 8 | 9 => decide
  | n + 10 =>
      unfold blockNeedsSupport
      rw [blockRegistry_default]
      simp [airRow]

theorem isBlockSupport_air : isBlockSupport 0 = false := by decide

theorem isBlockSolid_ne_water (b : ℕ) (h : isBlockSolid b = true) :
    isBlockWater b = false := by
  match b with
  | 0 | 1 | 2 | 3 | 4 | 5 | 6 | 7 | 8 | 9 => revert h; decide
  | n + 10 =>
      unfold isBlockSolid at h
      rw [blockRegistry_default] at h
      simp [airRow] at h

theorem isBlockSolid_ne_air (b : ℕ) (h : isBlockSolid b = true) : b ≠ 0 := by
  intro h0
  rw [h0] at h
  simp [isBlockSolid, blockRegistry, airRow] at h

theorem getBlockSupportDirections_snow :
    getBlockSupportDirections 9 = [(0, -1, 0)] := by decide

/-- isPartialBlock evaluated over the registry: exactly SNOW is partial.
(The height comparison lives in ℚ, whose operations are irreducible, so
concrete proofs use this characterization.) -/
theorem isPartialBlock_eq (b : ℕ) : isPartialBlock b = decide (b = 9) := by
  match b with
  | 0 | 1 | 2 | 3 | 4 | 5 | 6 | 7 | 8 =>
      unfold isPartialBlock getBlockHeight blockRegistry airRow
      norm_num
  | 9 =>
      unfold isPartialBlock getBlockHeight blockRegistry
      norm_num
  | n + 10 =>
      unfold isPartialBlock getBlockHeight
      rw [blockRegistry_default]
      unfold airRow
      norm_num
      omega

/-! ## C8: meshing an unmodified chunk twice -/

/-- C8: calling buildMesh twice in succession on a chunk whose voxel data
and neighbor getter are unchanged between the calls installs identical
geometry buffers (positions, normals, UVs, per-vertex colors and triangle
indices, for both the solid and the water mesh) on both calls: buildMesh
reads only the voxel data and the getter, and writes only the mesh
fields. -/
theorem c8_buildMesh_idempotent (rc : RenderChunk) (g : ℤ → ℤ → ℤ → ℕ) :
    ((rc.buildMesh g).buildMesh g).mesh = (rc.buildMesh g).mesh
    ∧ ((rc.buildMesh g).buildMesh g).waterMesh = (rc.buildMesh g).waterMesh :=
  ⟨rfl, rfl⟩

/-! ## C10: getBlockForChunk never reads the voxel array out of bounds -/

/-- C10: every getBlockForChunk query either answers from the terrain
generator (out-of-range Y, or unloaded chunk), or reads the owning
chunk's array at the linear index of the Euclidean-reduced local
coordinates, which always lies inside the CHUNK_WIDTH * CHUNK_HEIGHT *
CHUNK_DEPTH array. -/
theorem c10_getBlockForChunk_index_safe (st : WorldState) (x y z : ℤ) :
    (World.getBlockForChunk st x y z = st.tg.getBlock x y z)
    ∨ ∃ c, st.chunks (worldChunkCoord x) (worldChunkCoord z) = some c
        ∧ World.getBlockForChunk st x y z
            = c.blocks (getIndex (worldLocalCoord x) y (worldLocalCoord z))
        ∧ 0 ≤ getIndex (worldLocalCoord x) y (worldLocalCoord z)
        ∧ getIndex (worldLocalCoord x) y (worldLocalCoord z)
            < CHUNK_WIDTH * CHUNK_HEIGHT * CHUNK_DEPTH := by
  unfold World.getBlockForChunk
  split_ifs with hy
  · left; rfl
  · cases hc : st.chunks (worldChunkCoord x) (worldChunkCoord z) with
    | none => left; rfl
    | some c =>
        right
        refine ⟨c, rfl, rfl, ?_, ?_⟩
        · have h1 := worldLocalCoord_nonneg x
          have h2 := worldLocalCoord_nonneg z
          unfold getIndex CHUNK_WIDTH CHUNK_HEIGHT CHUNK_DEPTH at *
          push_neg at hy
          omega
        · have h1 := worldLocalCoord_lt x
          have h2 := worldLocalCoord_lt z
          have h3 := worldLocalCoord_nonneg x
          have h4 := worldLocalCoord_nonneg z
          unfold getIndex CHUNK_WIDTH CHUNK_HEIGHT CHUNK_DEPTH at *
          push_neg at hy
          omega

/-! ## C3: queries against unloaded chunks -/

/-- C3 (amended): for a coordinate inside an unloaded chunk, the chunk
neighbor-lookup closure World.getBlockForChunk returns the fresh
terrain-generator sample, while the public World.getBlock instead
returns the empty type (AIR, 0). -/
theorem c3_unloaded_fallback (st : WorldState) (x y z : ℤ)
    (h : st.chunks (worldChunkCoord x) (worldChunkCoord z) = none) :
    World.getBlockForChunk st x y z = st.tg.getBlock x y z
    ∧ World.getBlock st x y z = 0 := by
  constructor
  · unfold World.getBlockForChunk
    split_ifs
    · rfl
    · rw [h]
  · unfold World.getBlock
    rw [h]

theorem c3_witness :
    ((⟨fun _ _ => none, TerrainGen.setSeed 1⟩ : WorldState).chunks
        (worldChunkCoord 0) (worldChunkCoord 0) = none)
    ∧ (World.getBlockForChunk ⟨fun _ _ => none, TerrainGen.setSeed 1⟩ 0 0 0
          = (TerrainGen.setSeed 1).getBlock 0 0 0
        ∧ World.getBlock ⟨fun _ _ => none, TerrainGen.setSeed 1⟩ 0 0 0 = 0) :=
  ⟨rfl, c3_unloaded_fallback ⟨fun _ _ => none, TerrainGen.setSeed 1⟩ 0 0 0 rfl⟩

/-- The terrain sample at (0, 0, 0) under seed 1: the surface height
evaluates to 13, and y = 0 falls in the bedrock layer (y ≤ 1). -/
theorem c3_terrain_sample_000 : (TerrainGen.setSeed 1).getBlock 0 0 0 = 4 := by
  have h1 : lcgNext 1 = 58598 := by decide
  unfold TerrainGen.getBlock TerrainGen.getHeight TerrainGen.setSeed
    createNoise2D createNoise3D
  rw [jsMathFloor_eq_floor, h1]
  norm_num

/-- C3 counterexample: in a world with no loaded chunks (seed 1), the
public World.getBlock at (0, 0, 0) returns AIR (0), but the
terrain-generator sample there is BEDROCK (4): the claim that every
block query returns the terrain sample for unloaded chunks is false for
World.getBlock. -/
theorem c3_counterexample :
    (⟨fun _ _ => none, TerrainGen.setSeed 1⟩ : WorldState).chunks
        (worldChunkCoord 0) (worldChunkCoord 0) = none
    ∧ World.getBlock ⟨fun _ _ => none, TerrainGen.setSeed 1⟩ 0 0 0 = 0
    ∧ (TerrainGen.setSeed 1).getBlock 0 0 0 = 4
    ∧ World.getBlock ⟨fun _ _ => none, TerrainGen.setSeed 1⟩ 0 0 0
        ≠ (TerrainGen.setSeed 1).getBlock 0 0 0 := by
  refine ⟨rfl, rfl, c3_terrain_sample_000, ?_⟩
  rw [c3_terrain_sample_000]
  decide

/-! ## Read-after-write lemmas for World mutation -/

theorem Chunk.setBlock_chunkX (c : Chunk) (x y z : ℤ) (t : ℕ) :
    (c.setBlock x y z t).chunkX = c.chunkX := by
  unfold Chunk.setBlock
  split_ifs <;> rfl

theorem Chunk.setBlock_chunkZ (c : Chunk) (x y z : ℤ) (t : ℕ) :
    (c.setBlock x y z t).chunkZ = c.chunkZ := by
  unfold Chunk.setBlock
  split_ifs <;> rfl

theorem getBlockForChunk_yOut (st : WorldState) (wx wy wz : ℤ)
    (h : wy < 0 ∨ wy ≥ 64) :
    World.getBlockForChunk st wx wy wz = st.tg.getBlock wx wy wz := by
  unfold World.getBlockForChunk CHUNK_HEIGHT
  rw [if_pos h]

theorem writeChunkBlock_tg (st : WorldState) (x y z : ℤ) (t : ℕ) :
    (World.writeChunkBlock st x y z t).tg = st.tg := by
  unfold World.writeChunkBlock
  cases st.chunks (worldChunkCoord x) (worldChunkCoord z) <;> rfl

theorem writeChunkBlock_isSome (st : WorldState) (x y z : ℤ) (t : ℕ)
    (a b : ℤ) :
    ((World.writeChunkBlock st x y z t).chunks a b).isSome
      = (st.chunks a b).isSome := by
  unfold World.writeChunkBlock
  cases hC : st.chunks (worldChunkCoord x) (worldChunkCoord z) with
  | none => rfl
  | some c =>
      by_cases hab : a = worldChunkCoord x ∧ b = worldChunkCoord z
      · obtain ⟨rfl, rfl⟩ := hab
        simp only [if_pos, and_self]
        rw [hC]
        rfl
      · simp only [if_neg hab]

/-- getIndex is injective on in-range local coordinates. -/
theorem getIndex_inj (x y z x' y' z' : ℤ)
    (hx : 0 ≤ x ∧ x < 16) (hy : 0 ≤ y ∧ y < 64) (hz : 0 ≤ z ∧ z < 16)
    (hx' : 0 ≤ x' ∧ x' < 16) (hy' : 0 ≤ y' ∧ y' < 64) (hz' : 0 ≤ z' ∧ z' < 16)
    (h : getIndex x y z = getIndex x' y' z') : x = x' ∧ y = y' ∧ z = z' := by
  unfold getIndex CHUNK_WIDTH CHUNK_DEPTH at h
  omega

/-- Reading back the written cell: when the target chunk is loaded and
the Y coordinate is in range, the public getBlock sees the new value. -/
theorem getBlock_writeChunkBlock_eq (st : WorldState) (x y z : ℤ) (t : ℕ)
    (hl : (st.chunks (worldChunkCoord x) (worldChunkCoord z)).isSome)
    (hy : 0 ≤ y ∧ y < 64) :
    World.getBlock (World.writeChunkBlock st x y z t) x y z = t := by
  obtain ⟨c, hC⟩ : ∃ c, st.chunks (worldChunkCoord x) (worldChunkCoord z) = some c :=
    Option.isSome_iff_exists.mp hl
  have h1 := worldLocalCoord_nonneg x
  have h2 := worldLocalCoord_lt x
  have h3 := worldLocalCoord_nonneg z
  have h4 := worldLocalCoord_lt z
  have hInB : ¬(worldLocalCoord x < 0 ∨ worldLocalCoord x ≥ CHUNK_WIDTH
      ∨ y < 0 ∨ y ≥ CHUNK_HEIGHT
      ∨ worldLocalCoord z < 0 ∨ worldLocalCoord z ≥ CHUNK_DEPTH) := by
    unfold CHUNK_WIDTH CHUNK_HEIGHT CHUNK_DEPTH
    omega
  have hc' : (World.writeChunkBlock st x y z t).chunks (worldChunkCoord x)
      (worldChunkCoord z)
      = some (c.setBlock (worldLocalCoord x) y (worldLocalCoord z) t) := by
    unfold World.writeChunkBlock
    rw [hC]
    simp
  unfold World.getBlock
  rw [hc']
  simp only []
  unfold Chunk.getBlockWith
  rw [if_neg hInB]
  unfold Chunk.setBlock
  rw [if_neg hInB]
  unfold Chunk.getBlockLocal
  simp

/-- Characterization of the public getBlock: unloaded chunk gives AIR;
in-range Y reads the chunk array; out-of-range Y escalates through the
injected getter to a terrain sample. -/
theorem getBlock_char (st : WorldState) (qx qy qz : ℤ) :
    World.getBlock st qx qy qz =
      match st.chunks (worldChunkCoord qx) (worldChunkCoord qz) with
      | none => 0
      | some c =>
          if 0 ≤ qy ∧ qy < 64 then
            c.blocks (getIndex (worldLocalCoord qx) qy (worldLocalCoord qz))
          else
            st.tg.getBlock (c.chunkX * CHUNK_WIDTH + worldLocalCoord qx) qy
              (c.chunkZ * CHUNK_DEPTH + worldLocalCoord qz) := by
  unfold World.getBlock
  cases hC : st.chunks (worldChunkCoord qx) (worldChunkCoord qz) with
  | none => rfl
  | some c =>
      simp only []
      have h1 := worldLocalCoord_nonneg qx
      have h2 := worldLocalCoord_lt qx
      have h3 := worldLocalCoord_nonneg qz
      have h4 := worldLocalCoord_lt qz
      unfold Chunk.getBlockWith
      by_cases hqy : 0 ≤ qy ∧ qy < 64
      · rw [if_neg (by unfold CHUNK_WIDTH CHUNK_HEIGHT CHUNK_DEPTH; omega),
          if_pos hqy]
        rfl
      · rw [if_pos (by unfold CHUNK_WIDTH CHUNK_HEIGHT CHUNK_DEPTH; omega),
          if_neg hqy]
        exact getBlockForChunk_yOut st _ qy _ (by omega)

/-- Writes do not change reads at any other world position. -/
theorem getBlock_writeChunkBlock_ne (st : WorldState) (x y z : ℤ) (t : ℕ)
    (qx qy qz : ℤ) (hne : ¬(qx = x ∧ qy = y ∧ qz = z)) :
    World.getBlock (World.writeChunkBlock st x y z t) qx qy qz
      = World.getBlock st qx qy qz := by
  cases hC : st.chunks (worldChunkCoord x) (worldChunkCoord z) with
  | none =>
      have hid : World.writeChunkBlock st x y z t = st := by
        unfold World.writeChunkBlock
        rw [hC]
      rw [hid]
  | some c =>
      have hchunks' : (World.writeChunkBlock st x y z t).chunks = fun a b =>
          if a = worldChunkCoord x ∧ b = worldChunkCoord z then
            some (c.setBlock (worldLocalCoord x) y (worldLocalCoord z) t)
          else st.chunks a b := by
        unfold World.writeChunkBlock
        rw [hC]
      rw [getBlock_char, getBlock_char, hchunks',
        writeChunkBlock_tg st x y z t]
      by_cases hkey : worldChunkCoord qx = worldChunkCoord x
          ∧ worldChunkCoord qz = worldChunkCoord z
      · simp only [if_pos hkey]
        rw [hkey.1, hkey.2, hC]
        simp only []
        by_cases hqy : 0 ≤ qy ∧ qy < 64
        · rw [if_pos hqy, if_pos hqy]
          unfold Chunk.setBlock
          by_cases hyw : y < 0 ∨ y ≥ 64
          · rw [if_pos (by
              have h1 := worldLocalCoord_nonneg x
              have h2 := worldLocalCoord_lt x
              unfold CHUNK_WIDTH CHUNK_HEIGHT CHUNK_DEPTH
              omega)]
          · rw [if_neg (by
              have h1 := worldLocalCoord_nonneg x
              have h2 := worldLocalCoord_lt x
              have h3 := worldLocalCoord_nonneg z
              have h4 := worldLocalCoord_lt z
              unfold CHUNK_WIDTH CHUNK_HEIGHT CHUNK_DEPTH
              omega)]
            simp only []
            rw [if_neg ?hidx]
            case hidx =>
              intro hEq
              have hx1 := worldLocalCoord_nonneg x
              have hx2 := worldLocalCoord_lt x
              have hz1 := worldLocalCoord_nonneg z
              have hz2 := worldLocalCoord_lt z
              have hqx1 := worldLocalCoord_nonneg qx
              have hqx2 := worldLocalCoord_lt qx
              have hqz1 := worldLocalCoord_nonneg qz
              have hqz2 := worldLocalCoord_lt qz
              have hinj := getIndex_inj _ _ _ _ _ _ ⟨hqx1, hqx2⟩ hqy
                ⟨hqz1, hqz2⟩ ⟨hx1, hx2⟩ (by omega) ⟨hz1, hz2⟩ hEq
              have hdx := worldCoord_decomp qx
              have hdx' := worldCoord_decomp x
              have hdz := worldCoord_decomp qz
              have hdz' := worldCoord_decomp z
              exact hne ⟨by omega, hinj.2.1, by omega⟩
        · rw [if_neg hqy, if_neg hqy, Chunk.setBlock_chunkX,
            Chunk.setBlock_chunkZ]
      · simp only [if_neg hkey]

/-! ## C9: placement touches only the target voxel -/

/-- C9: setBlock with a non-empty type modifies no voxel other than the
target: the support cascade only runs for AIR writes, so a placement
never removes another block. In particular a needsSupport block (SNOW)
placed with no valid support is left in place: when the target chunk is
loaded and Y is in range, the target reads back as the placed type. -/
theorem c9_place_frame (fuel : ℕ) (st : WorldState) (x y z : ℤ) (t : ℕ)
    (ht : t ≠ 0) :
    ∃ st', World.setBlock fuel st x y z t = some st'
      ∧ (∀ qx qy qz : ℤ, ¬(qx = x ∧ qy = y ∧ qz = z) →
          World.getBlock st' qx qy qz = World.getBlock st qx qy qz)
      ∧ ((st.chunks (worldChunkCoord x) (worldChunkCoord z)).isSome →
          0 ≤ y → y < 64 → World.getBlock st' x y z = t) := by
  unfold World.setBlock
  cases hC : st.chunks (worldChunkCoord x) (worldChunkCoord z) with
  | none =>
      refine ⟨st, rfl, fun _ _ _ _ => rfl, fun hl _ _ => ?_⟩
      simp at hl
  | some c =>
      refine ⟨World.writeChunkBlock st x y z t, ?_, ?_, ?_⟩
      · simp only []
        rw [if_neg ht]
      · intro qx qy qz hne
        exact getBlock_writeChunkBlock_ne st x y z t qx qy qz hne
      · intro hl hy0 hy1
        exact getBlock_writeChunkBlock_eq st x y z t (by rw [hC]; rfl) ⟨hy0, hy1⟩

def chunkAir : Chunk := ⟨0, 0, fun _ => 0, false⟩

def worldOneChunk : WorldState :=
  ⟨fun a b => if a = 0 ∧ b = 0 then some chunkAir else none,
    TerrainGen.setSeed 1⟩

theorem c9_witness :
    (9 : ℕ) ≠ 0
    ∧ ∃ st', World.setBlock 0 worldOneChunk 5 10 5 9 = some st'
      ∧ (∀ qx qy qz : ℤ, ¬(qx = 5 ∧ qy = 10 ∧ qz = 5) →
          World.getBlock st' qx qy qz = World.getBlock worldOneChunk qx qy qz)
      ∧ ((worldOneChunk.chunks (worldChunkCoord 5) (worldChunkCoord 5)).isSome →
          (0 : ℤ) ≤ 10 → (10 : ℤ) < 64 → World.getBlock st' 5 10 5 = 9) :=
  ⟨by decide, c9_place_frame 0 worldOneChunk 5 10 5 9 (by decide)⟩

/-! ## C7: chunk lifecycle radii of World.update -/

/-- C7: after update(centerX, centerZ) in normal (non-edge-world) mode,
with pc the center chunk: every chunk with per-axis offset at most
RENDER_DISTANCE is loaded (kept, or freshly generated and meshed); every
chunk with offset exceeding RENDER_DISTANCE + 1 on either axis is
unloaded; chunks in the hysteresis band in between are left exactly as
they were (neither created nor unloaded). Under the system invariant
that loaded chunks are meshed, every in-range chunk is loaded and
meshed. -/
theorem c7_update_radius (st : WorldState) (px pz : ℚ)
    (hmeshed : ∀ cx cz c, st.chunks cx cz = some c → c.meshed = true) :
    ∀ cx cz : ℤ,
      ((World.update false st px pz).chunks cx cz =
        (if |cx - jsMathFloor (px / (CHUNK_WIDTH : ℚ))| ≤ RENDER_DISTANCE
            ∧ |cz - jsMathFloor (pz / (CHUNK_DEPTH : ℚ))| ≤ RENDER_DISTANCE then
          some ((st.chunks cx cz).getD
            { Chunk.generate st.tg cx cz with meshed := true })
        else if |cx - jsMathFloor (px / (CHUNK_WIDTH : ℚ))| ≤ RENDER_DISTANCE + 1
            ∧ |cz - jsMathFloor (pz / (CHUNK_DEPTH : ℚ))| ≤ RENDER_DISTANCE + 1 then
          st.chunks cx cz
        else none))
      ∧ (∀ c, (World.update false st px pz).chunks cx cz = some c →
          c.meshed = true) := by
  intro cx cz
  have hmain : (World.update false st px pz).chunks cx cz =
      (if |cx - jsMathFloor (px / (CHUNK_WIDTH : ℚ))| ≤ RENDER_DISTANCE
          ∧ |cz - jsMathFloor (pz / (CHUNK_DEPTH : ℚ))| ≤ RENDER_DISTANCE then
        some ((st.chunks cx cz).getD
          { Chunk.generate st.tg cx cz with meshed := true })
      else if |cx - jsMathFloor (px / (CHUNK_WIDTH : ℚ))| ≤ RENDER_DISTANCE + 1
          ∧ |cz - jsMathFloor (pz / (CHUNK_DEPTH : ℚ))| ≤ RENDER_DISTANCE + 1 then
        st.chunks cx cz
      else none) := by
    unfold World.update RENDER_DISTANCE
    simp only [Bool.false_eq_true, if_false]
    set pcx := jsMathFloor (px / (CHUNK_WIDTH : ℚ)) with hpcx
    set pcz := jsMathFloor (pz / (CHUNK_DEPTH : ℚ)) with hpcz
    simp only [abs_le, lt_abs]
    cases hsc : st.chunks cx cz with
    | none =>
        split_ifs with h1 h2 h3 h4 h5 <;> first | rfl | (exfalso; omega)
    | some c =>
        split_ifs with h1 h2 h3 h4 h5 <;> first | rfl | (exfalso; omega)
  refine ⟨hmain, ?_⟩
  intro c hc
  rw [hmain] at hc
  split_ifs at hc with h1 h2
  · cases hsc : st.chunks cx cz with
    | none =>
        rw [hsc, Option.getD_none] at hc
        injection hc with h
        subst h
        rfl
    | some c0 =>
        rw [hsc, Option.getD_some] at hc
        injection hc with h
        subst h
        exact hmeshed cx cz c0 hsc
  · exact hmeshed cx cz c hc

def worldEmpty : WorldState := ⟨fun _ _ => none, TerrainGen.setSeed 1⟩

theorem c7_witness :
    (∀ cx cz c, worldEmpty.chunks cx cz = some c → c.meshed = true)
    ∧ ((World.update false worldEmpty 0 0).chunks 0 0 =
        (if |(0 : ℤ) - jsMathFloor ((0 : ℚ) / (CHUNK_WIDTH : ℚ))| ≤ RENDER_DISTANCE
            ∧ |(0 : ℤ) - jsMathFloor ((0 : ℚ) / (CHUNK_DEPTH : ℚ))| ≤ RENDER_DISTANCE then
          some ((worldEmpty.chunks 0 0).getD
            { Chunk.generate worldEmpty.tg 0 0 with meshed := true })
        else if |(0 : ℤ) - jsMathFloor ((0 : ℚ) / (CHUNK_WIDTH : ℚ))| ≤ RENDER_DISTANCE + 1
            ∧ |(0 : ℤ) - jsMathFloor ((0 : ℚ) / (CHUNK_DEPTH : ℚ))| ≤ RENDER_DISTANCE + 1 then
          worldEmpty.chunks 0 0
        else none))
    ∧ (∀ c, (World.update false worldEmpty 0 0).chunks 0 0 = some c →
        c.meshed = true) :=
  have h : ∀ cx cz c, worldEmpty.chunks cx cz = some c → c.meshed = true :=
    fun _ _ _ hc => nomatch hc
  ⟨h, (c7_update_radius worldEmpty 0 0 h 0 0).1,
    (c7_update_radius worldEmpty 0 0 h 0 0).2⟩

/-! ## C6: determinism of seeded terrain sampling -/

/-- A session of getBlock calls against one generator, in call order.
getBlock reads only the generator state (the noise functions built by
setSeed) and never writes it, so a session's results are the pointwise
image of its queries. -/
def TerrainGen.runQueries (tg : TerrainGen) (qs : List (ℤ × ℤ × ℤ)) :
    List ℕ :=
  qs.map fun q => tg.getBlock q.1 q.2.1 q.2.2

/-- C6: after setSeed(s), any two getBlock calls with identical
coordinates return the same block type, regardless of which session they
occur in, at which position, or what other calls surround them: the
i-th result of any session is determined by the i-th query and the seed
alone. (The external simplex-noise construction is spec-modelled as a
deterministic pure function of the seeded LCG source.) -/
theorem c6_determinism (s : ℤ) (qs1 qs2 : List (ℤ × ℤ × ℤ)) (i j : ℕ)
    (q : ℤ × ℤ × ℤ) (h1 : qs1[i]? = some q) (h2 : qs2[j]? = some q) :
    ((TerrainGen.setSeed s).runQueries qs1)[i]?
      = ((TerrainGen.setSeed s).runQueries qs2)[j]? := by
  unfold TerrainGen.runQueries
  rw [List.getElem?_map, List.getElem?_map, h1, h2]

theorem c6_witness :
    ([((8 : ℤ), (0 : ℤ), (8 : ℤ))][0]? = some ((8 : ℤ), (0 : ℤ), (8 : ℤ)))
    ∧ ([((1 : ℤ), (2 : ℤ), (3 : ℤ)), ((8 : ℤ), (0 : ℤ), (8 : ℤ))][1]?
        = some ((8 : ℤ), (0 : ℤ), (8 : ℤ)))
    ∧ ((TerrainGen.setSeed 42).runQueries [((8 : ℤ), (0 : ℤ), (8 : ℤ))])[0]?
      = ((TerrainGen.setSeed 42).runQueries
          [((1 : ℤ), (2 : ℤ), (3 : ℤ)), ((8 : ℤ), (0 : ℤ), (8 : ℤ))])[1]? :=
  ⟨rfl, rfl, c6_determinism 42 _ _ 0 1 ((8 : ℤ), (0 : ℤ), (8 : ℤ)) rfl rfl⟩

/-! ## C4: the AO-flip triangulation diagonal -/

/-- C4 (amended): every face quad emitted by Chunk.addFace is split into
the two triangles (s+1, s+2, s+3), (s+1, s+3, s) exactly when the AO sum
of corner pair (0, 2) strictly exceeds that of pair (1, 3), and into
(s, s+1, s+2), (s, s+2, s+3) otherwise; in both cases the shared
diagonal of the two triangles runs along the corner pair whose combined
occlusion is LOWER (or tied), i.e. the cut avoids the higher-occlusion
pair. -/
theorem c4_diagonal_amended (c : Chunk) (g : ℤ → ℤ → ℤ → ℕ)
    (startIndex : ℕ) (verts : List (ℚ × ℚ × ℚ)) (normal : ℤ × ℤ × ℤ)
    (faceBrightness : ℚ) (blockType : ℕ) (uvFace : FaceKind)
    (bx yb bz : ℤ) (isWater : Bool) (bh : ℚ) :
    ((c.addFace g startIndex verts normal faceBrightness blockType uvFace
          bx yb bz isWater bh).indices
        = [startIndex + 1, startIndex + 2, startIndex + 3,
           startIndex + 1, startIndex + 3, startIndex]
      ∧ (c.faceAOs g bx yb bz normal verts isWater bh).getD 1 0
          + (c.faceAOs g bx yb bz normal verts isWater bh).getD 3 0
        ≤ (c.faceAOs g bx yb bz normal verts isWater bh).getD 0 0
          + (c.faceAOs g bx yb bz normal verts isWater bh).getD 2 0)
    ∨ ((c.addFace g startIndex verts normal faceBrightness blockType uvFace
          bx yb bz isWater bh).indices
        = [startIndex, startIndex + 1, startIndex + 2,
           startIndex, startIndex + 2, startIndex + 3]
      ∧ (c.faceAOs g bx yb bz normal verts isWater bh).getD 0 0
          + (c.faceAOs g bx yb bz normal verts isWater bh).getD 2 0
        ≤ (c.faceAOs g bx yb bz normal verts isWater bh).getD 1 0
          + (c.faceAOs g bx yb bz normal verts isWater bh).getD 3 0) := by
  by_cases hcmp : (c.faceAOs g bx yb bz normal verts isWater bh).getD 0 0
      + (c.faceAOs g bx yb bz normal verts isWater bh).getD 2 0
      > (c.faceAOs g bx yb bz normal verts isWater bh).getD 1 0
      + (c.faceAOs g bx yb bz normal verts isWater bh).getD 3 0
  · left
    refine ⟨?_, by omega⟩
    unfold Chunk.addFace
    simp only [if_pos hcmp]
  · right
    refine ⟨?_, by omega⟩
    unfold Chunk.addFace
    simp only [if_neg hcmp]

def chunkC4 : Chunk :=
  ⟨0, 0, fun i =>
    if i = getIndex 1 1 1 then 1 else if i = getIndex 0 2 2 then 3 else 0,
    false⟩

def getterZero : ℤ → ℤ → ℤ → ℕ := fun _ _ _ => 0

/-- C4 counterexample: in a chunk holding GRASS at (1, 1, 1) and STONE
at (0, 2, 2), the emitted top face of the grass block has per-vertex AO
[1, 0, 0, 0]; addFace splits it into triangles (1, 2, 3) and (1, 3, 0),
whose shared diagonal is the corner pair (1, 3) with combined occlusion
0 + 0 = 0, strictly LOWER than pair (0, 2) with 1 + 0 = 1 — the claim
that the diagonal runs along the pair with the higher combined occlusion
is false on this quad. -/
theorem c4_counterexample :
    (chunkC4.getBlockWith getterZero 1 1 1 = 1
      ∧ chunkC4.faceVisible getterZero 1 1 1 0 = true)
    ∧ chunkC4.faceAOs getterZero 1 1 1 (0, 1, 0) (faceVerts 1 1 1 0 1)
        false 1 = [1, 0, 0, 0]
    ∧ (chunkC4.addFace getterZero 0 (faceVerts 1 1 1 0 1) (0, 1, 0) 1 1
        FaceKind.top 1 1 1 false 1).indices = [1, 2, 3, 1, 3, 0]
    ∧ 0 + 0 < 1 + 0 := by
  refine ⟨⟨?_, ?_⟩, ?_, ?_, by norm_num⟩
  · decide
  · unfold Chunk.faceVisible faceAt FACES
    norm_num [isPartialBlock_eq, chunkC4, getterZero, Chunk.getBlockWith,
      Chunk.getBlockLocal, getIndex, CHUNK_WIDTH, CHUNK_HEIGHT, CHUNK_DEPTH,
      isBlockWater, isBlockTransparent, blockRegistry, airRow]
  · unfold Chunk.faceAOs Chunk.calculateVertexAO Chunk.isBlockOccluding
      faceVerts faceAt FACES
    norm_num [isPartialBlock_eq, chunkC4, getterZero, Chunk.getBlockWith,
      Chunk.getBlockLocal, getIndex, CHUNK_WIDTH, CHUNK_HEIGHT, CHUNK_DEPTH,
      isBlockTransparent, blockRegistry, airRow]
  · unfold Chunk.addFace Chunk.faceAOs Chunk.calculateVertexAO
      Chunk.isBlockOccluding faceVerts faceAt FACES
    norm_num [isPartialBlock_eq, chunkC4, getterZero, Chunk.getBlockWith,
      Chunk.getBlockLocal, getIndex, CHUNK_WIDTH, CHUNK_HEIGHT, CHUNK_DEPTH,
      isBlockTransparent, blockRegistry, airRow]

/-! ## C2: face culling for full solid blocks -/

theorem mem_chunkCells (x y z : ℕ) :
    (x, y, z) ∈ chunkCells ↔ x < 16 ∧ y < 64 ∧ z < 16 := by
  unfold chunkCells
  simp only [List.mem_flatMap, List.mem_map, List.mem_range]
  constructor
  · rintro ⟨a, ha, b, hb, d, hd, heq⟩
    obtain ⟨rfl, rfl, rfl⟩ : a = x ∧ b = y ∧ d = z := by
      injection heq with h1 h2
      injection h2 with h2 h3
      exact ⟨h1, h2, h3⟩
    exact ⟨ha, hb, hd⟩
  · rintro ⟨hx, hy, hz⟩
    exact ⟨x, hx, y, hy, z, hz, rfl⟩

theorem mem_emittedFaces (c : Chunk) (g : ℤ → ℤ → ℤ → ℕ) (x y z fi : ℕ) :
    (x, y, z, fi) ∈ c.emittedFaces g ↔
      x < 16 ∧ y < 64 ∧ z < 16 ∧ fi < 6
      ∧ c.getBlockWith g x y z ≠ 0
      ∧ c.faceVisible g x y z fi = true := by
  unfold Chunk.emittedFaces
  simp only [List.mem_flatMap, List.mem_filterMap, List.mem_range]
  constructor
  · rintro ⟨cell, hcell, fi', hfi', hsome⟩
    split_ifs at hsome with hcond
    · injection hsome with h1
      obtain ⟨h1a, h1b, h1c, h1d⟩ :
          cell.1 = x ∧ cell.2.1 = y ∧ cell.2.2 = z ∧ fi' = fi := by
        injection h1 with ha hb
        injection hb with hb hc
        injection hc with hc hd
        exact ⟨ha, hb, hc, hd⟩
      have hm := (mem_chunkCells cell.1 cell.2.1 cell.2.2).mp (by exact hcell)
      rw [h1a, h1b, h1c] at hm
      rw [h1a, h1b, h1c, h1d] at hcond
      exact ⟨hm.1, hm.2.1, hm.2.2, h1d ▸ hfi', hcond.1, hcond.2⟩
  · rintro ⟨hx, hy, hz, hfi, hnz, hvis⟩
    refine ⟨(x, y, z), (mem_chunkCells x y z).mpr ⟨hx, hy, hz⟩, fi, hfi, ?_⟩
    rw [if_pos ⟨hnz, hvis⟩]

theorem mem_emittedSolidFaces (c : Chunk) (g : ℤ → ℤ → ℤ → ℕ)
    (x y z fi : ℕ) :
    (x, y, z, fi) ∈ c.emittedSolidFaces g ↔
      (x, y, z, fi) ∈ c.emittedFaces g
      ∧ isBlockWater (c.getBlockWith g x y z) = false := by
  unfold Chunk.emittedSolidFaces
  rw [List.mem_filter]
  simp

/-- C2: for a block whose registry entry is solid and non-partial, a face
toward direction fi is present in the solid geometry of buildMesh if and
only if the neighboring block in that direction is transparent per the
block registry; in particular no face is emitted between two adjacent
opaque full blocks. -/
theorem c2_face_culling_iff (c : Chunk) (g : ℤ → ℤ → ℤ → ℕ)
    (x y z fi : ℕ) (hx : x < 16) (hy : y < 64) (hz : z < 16) (hfi : fi < 6)
    (hsolid : isBlockSolid (c.getBlockWith g x y z) = true)
    (hpart : isPartialBlock (c.getBlockWith g x y z) = false) :
    ((x, y, z, fi) ∈ c.emittedSolidFaces g
      ↔ isBlockTransparent (c.getBlockWith g
          ((x : ℤ) + (faceAt fi).dir.1) ((y : ℤ) + (faceAt fi).dir.2.1)
          ((z : ℤ) + (faceAt fi).dir.2.2)) = true) := by
  have hw : isBlockWater (c.getBlockWith g x y z) = false :=
    isBlockSolid_ne_water _ hsolid
  have hnz : c.getBlockWith g x y z ≠ 0 :=
    isBlockSolid_ne_air _ hsolid
  have hvis : c.faceVisible g x y z fi
      = isBlockTransparent (c.getBlockWith g
          ((x : ℤ) + (faceAt fi).dir.1) ((y : ℤ) + (faceAt fi).dir.2.1)
          ((z : ℤ) + (faceAt fi).dir.2.2)) := by
    unfold Chunk.faceVisible
    simp only [hw, hpart, Bool.false_eq_true, if_false]
  rw [mem_emittedSolidFaces, mem_emittedFaces, hvis]
  simp [hx, hy, hz, hfi, hnz, hw]

theorem c2_witness :
    ((1 : ℕ) < 16 ∧ (1 : ℕ) < 64 ∧ (1 : ℕ) < 16 ∧ (0 : ℕ) < 6
      ∧ isBlockSolid (chunkC4.getBlockWith getterZero 1 1 1) = true
      ∧ isPartialBlock (chunkC4.getBlockWith getterZero 1 1 1) = false)
    ∧ ((1, 1, 1, 0) ∈ chunkC4.emittedSolidFaces getterZero
      ↔ isBlockTransparent (chunkC4.getBlockWith getterZero
          ((1 : ℤ) + (faceAt 0).dir.1) ((1 : ℤ) + (faceAt 0).dir.2.1)
          ((1 : ℤ) + (faceAt 0).dir.2.2)) = true) :=
  ⟨⟨by decide, by decide, by decide, by decide, by decide,
      by rw [isPartialBlock_eq]; decide⟩,
    c2_face_culling_iff chunkC4 getterZero 1 1 1 0
      (by decide) (by decide) (by decide) (by decide) (by decide)
      (by rw [isPartialBlock_eq]; decide)⟩

/-! ## C5: collision resolution non-penetration -/

/-- C5 (amended): if the entity's bounding box overlaps no solid voxel
on entry, then after resolveCollisions the box again overlaps no solid
voxel, provided no downward-Y collision was resolved: the X and Z
responses undo the axis delta exactly, and an upward-Y collision undoes
the Y delta, each restoring a collision-free box. (The downward-Y snap
to floor(y) + 1.001 is excluded: it can push the box into a low
ceiling.) -/
theorem c5_resolve_amended (st : WorldState) (e : Entity) (dt : ℚ)
    (hFree : checkCollisionAt st e.px e.py e.pz e.width e.height = false)
    (hNoDown : (Entity.resolveCollisions st e dt).downY = false) :
    checkCollisionAt st (Entity.resolveCollisions st e dt).entity.px
      (Entity.resolveCollisions st e dt).entity.py
      (Entity.resolveCollisions st e dt).entity.pz
      e.width e.height = false := by
  unfold Entity.resolveCollisions at hNoDown ⊢
  simp only [] at hNoDown ⊢
  split_ifs at hNoDown ⊢ <;>
    simp_all [add_sub_cancel_right]

/-- Floor plane at y = 5 (indices 1280..1535) and ceiling plane at y = 7
(indices 1792..2047), stone; everything else air. -/
def chunkC5 : Chunk :=
  ⟨0, 0, fun i =>
    if (1280 ≤ i ∧ i < 1536) ∨ (1792 ≤ i ∧ i < 2048) then 3 else 0,
    false⟩

def worldC5 : WorldState :=
  ⟨fun a b => if a = 0 ∧ b = 0 then some chunkC5 else none,
    TerrainGen.setSeed 1⟩

/-- The falling entity: 0.6 wide, 0.999 tall, at (8, 6, 8) with
vy = -2. -/
def entC5 : Entity :=
  { px := 8, py := 6, pz := 8, vx := 0, vy := -2, vz := 0
  , width := 3/5, height := 999/1000, grounded := false }

theorem worldC5_checkA :
    checkCollisionAt worldC5 8 6 8 (3/5) (999/1000) = false := by
  unfold checkCollisionAt getBlockBounds
  simp only [jsMathFloor_eq_floor]
  norm_num
  decide

theorem worldC5_checkB :
    checkCollisionAt worldC5 8 (11/2) 8 (3/5) (999/1000) = true := by
  unfold checkCollisionAt getBlockBounds
  simp only [jsMathFloor_eq_floor]
  norm_num
  decide

theorem worldC5_checkC :
    checkCollisionAt worldC5 8 (6001/1000) 8 (3/5) (999/1000) = true := by
  unfold checkCollisionAt getBlockBounds
  simp only [jsMathFloor_eq_floor]
  norm_num
  decide

/-- C5 counterexample: the entity (0.6 wide, 0.999 tall) at (8, 6, 8)
falls with vy = -2, dt = 1/4 onto a stone floor at y = 5 under a stone
ceiling at y = 7; its box is collision-free on entry, the Y axis reports
a (downward) collision, and after resolveCollisions the snapped box
(feet at 6.001, head at exactly 7.0) overlaps the ceiling voxel row — so
the claim that the box does not overlap any solid voxel on an axis that
reported a collision is false. -/
theorem c5_counterexample :
    checkCollisionAt worldC5 entC5.px entC5.py entC5.pz
      entC5.width entC5.height = false
    ∧ (Entity.resolveCollisions worldC5 entC5 (1/4)).collY = true
    ∧ (Entity.resolveCollisions worldC5 entC5 (1/4)).downY = true
    ∧ checkCollisionAt worldC5
        (Entity.resolveCollisions worldC5 entC5 (1/4)).entity.px
        (Entity.resolveCollisions worldC5 entC5 (1/4)).entity.py
        (Entity.resolveCollisions worldC5 entC5 (1/4)).entity.pz
        entC5.width entC5.height = true := by
  have hres : Entity.resolveCollisions worldC5 entC5 (1/4) =
      { entity :=
          { px := 8
          , py := 6001/1000
          , pz := 8
          , vx := 0
          , vy := 0
          , vz := 0
          , width := 3/5
          , height := 999/1000
          , grounded := true }
      , collX := false
      , collY := true
      , downY := true
      , collZ := true } := by
    unfold Entity.resolveCollisions
    norm_num [entC5, jsMathFloor_eq_floor, worldC5_checkA, worldC5_checkB,
      worldC5_checkC]
  refine ⟨?_, ?_, ?_, ?_⟩
  · norm_num [entC5, worldC5_checkA]
  · rw [hres]
  · rw [hres]
  · rw [hres]
    norm_num [entC5, worldC5_checkC]

def entC5w : Entity :=
  { px := 8, py := 10, pz := 8, vx := 0, vy := -2, vz := 0
  , width := 3/5, height := 999/1000, grounded := false }

theorem worldC5_checkD :
    checkCollisionAt worldC5 8 (19/2) 8 (3/5) (999/1000) = false := by
  unfold checkCollisionAt getBlockBounds
  simp only [jsMathFloor_eq_floor]
  norm_num
  decide

theorem worldC5_checkE :
    checkCollisionAt worldC5 8 10 8 (3/5) (999/1000) = false := by
  unfold checkCollisionAt getBlockBounds
  simp only [jsMathFloor_eq_floor]
  norm_num
  decide

theorem c5_witness :
    checkCollisionAt worldC5 entC5w.px entC5w.py entC5w.pz
      entC5w.width entC5w.height = false
    ∧ (Entity.resolveCollisions worldC5 entC5w (1/4)).downY = false
    ∧ checkCollisionAt worldC5
        (Entity.resolveCollisions worldC5 entC5w (1/4)).entity.px
        (Entity.resolveCollisions worldC5 entC5w (1/4)).entity.py
        (Entity.resolveCollisions worldC5 entC5w (1/4)).entity.pz
        entC5w.width entC5w.height = false := by
  have hfree : checkCollisionAt worldC5 entC5w.px entC5w.py entC5w.pz
      entC5w.width entC5w.height = false := by
    norm_num [entC5w, worldC5_checkE]
  have hnd : (Entity.resolveCollisions worldC5 entC5w (1/4)).downY = false := by
    unfold Entity.resolveCollisions
    norm_num [entC5w, worldC5_checkD, worldC5_checkE]
  exact ⟨hfree, hnd, c5_resolve_amended worldC5 entC5w (1/4) hfree hnd⟩

/-! ## C1: the structural-support cascade on a snow column

The scenario: the block at (x0, y0, z0) is broken (set to AIR) while the
N blocks directly above it are SNOW, the only needsSupport block type,
whose sole support direction is straight down. clearColumn names the
states the cascade walks through: the target plus the first j snow
blocks already cleared. -/

def clearColumn (st : WorldState) (x0 z0 y0 : ℤ) : ℕ → WorldState
  | 0 => World.writeChunkBlock st x0 y0 z0 0
  | j + 1 =>
      World.writeChunkBlock (clearColumn st x0 z0 y0 j) x0
        (y0 + (j : ℤ) + 1) z0 0

theorem clearColumn_tg (st : WorldState) (x0 z0 y0 : ℤ) (j : ℕ) :
    (clearColumn st x0 z0 y0 j).tg = st.tg := by
  induction j with
  | zero => exact writeChunkBlock_tg st x0 y0 z0 0
  | succ j ih =>
      unfold clearColumn
      rw [writeChunkBlock_tg, ih]

theorem clearColumn_isSome (st : WorldState) (x0 z0 y0 : ℤ) (j : ℕ)
    (a b : ℤ) :
    ((clearColumn st x0 z0 y0 j).chunks a b).isSome
      = (st.chunks a b).isSome := by
  induction j with
  | zero => exact writeChunkBlock_isSome st x0 y0 z0 0 a b
  | succ j ih =>
      unfold clearColumn
      rw [writeChunkBlock_isSome, ih]

/-- The voxel contents of the partially cleared column states. -/
theorem clearColumn_getBlock (st : WorldState) (x0 z0 y0 : ℤ) (j : ℕ)
    (hl : (st.chunks (worldChunkCoord x0) (worldChunkCoord z0)).isSome)
    (hy0 : 0 ≤ y0) (hyj : y0 + (j : ℤ) < 64) :
    ∀ qx qy qz : ℤ,
      World.getBlock (clearColumn st x0 z0 y0 j) qx qy qz
        = if qx = x0 ∧ qz = z0 ∧ y0 ≤ qy ∧ qy ≤ y0 + (j : ℤ) then 0
          else World.getBlock st qx qy qz := by
  induction j with
  | zero =>
      intro qx qy qz
      by_cases hq : qx = x0 ∧ qy = y0 ∧ qz = z0
      · rw [if_pos (by push_cast; omega), hq.1, hq.2.1, hq.2.2]
        exact getBlock_writeChunkBlock_eq st x0 y0 z0 0 hl
          ⟨hy0, by push_cast at hyj; omega⟩
      · rw [if_neg (by push_cast; omega)]
        exact getBlock_writeChunkBlock_ne st x0 y0 z0 0 qx qy qz hq
  | succ j ih =>
      intro qx qy qz
      have hyj' : y0 + (j : ℤ) < 64 := by push_cast at hyj ⊢; omega
      have hlj : ((clearColumn st x0 z0 y0 j).chunks (worldChunkCoord x0)
          (worldChunkCoord z0)).isSome := by
        rw [clearColumn_isSome]; exact hl
      by_cases hq : qx = x0 ∧ qy = y0 + (j : ℤ) + 1 ∧ qz = z0
      · rw [if_pos (by push_cast; omega), hq.1, hq.2.1, hq.2.2]
        unfold clearColumn
        exact getBlock_writeChunkBlock_eq (clearColumn st x0 z0 y0 j) x0
          (y0 + (j : ℤ) + 1) z0 0 hlj ⟨by omega, by push_cast at hyj; omega⟩
      · unfold clearColumn
        rw [getBlock_writeChunkBlock_ne (clearColumn st x0 z0 y0 j) x0
          (y0 + (j : ℤ) + 1) z0 0 qx qy qz hq, ih hyj' qx qy qz]
        by_cases hin : qx = x0 ∧ qz = z0 ∧ y0 ≤ qy ∧ qy ≤ y0 + (j : ℤ)
        · rw [if_pos hin, if_pos (by push_cast at hin ⊢; omega)]
        · rw [if_neg hin, if_neg (by push_cast at hq hin ⊢; omega)]

/-- If no direction in the remaining list points at an unsupported
needsSupport block, the cascade walk returns the state unchanged. -/
theorem breakUnsupGo_skip (fuel : ℕ) (st : WorldState) (x y z : ℤ)
    (L : List (ℤ × ℤ × ℤ))
    (h : ∀ d ∈ L,
      ¬(blockNeedsSupport
            (World.getBlock st (x + d.1) (y + d.2.1) (z + d.2.2)) = true
        ∧ ¬ World.hasValidSupport st (x + d.1) (y + d.2.1) (z + d.2.2)
            (World.getBlock st (x + d.1) (y + d.2.1) (z + d.2.2)) = true)) :
    World.breakUnsupGo fuel st x y z L = some st := by
  induction L with
  | nil => unfold World.breakUnsupGo; rfl
  | cons d rest ih =>
      unfold World.breakUnsupGo
      simp only []
      rw [if_neg (h d (by simp))]
      exact ih fun d' hd' => h d' (by simp [hd'])

/-- A neighbor that is not SNOW never triggers the cascade condition. -/
theorem not_cascade_cond (st' : WorldState) (qx qy qz : ℤ)
    (h : World.getBlock st' qx qy qz ≠ 9) :
    ¬(blockNeedsSupport (World.getBlock st' qx qy qz) = true
      ∧ ¬ World.hasValidSupport st' qx qy qz
          (World.getBlock st' qx qy qz) = true) := by
  rintro ⟨hneeds, -⟩
  exact h ((blockNeedsSupport_iff _).mp hneeds)

/-- One cascade step: when the head direction points at an unsupported
needsSupport block in a loaded chunk, the walk breaks it (write AIR,
recurse from the broken position with one fuel unit consumed) and then
continues with the remaining directions. -/
theorem breakUnsupGo_step (k' : ℕ) (st' : WorldState) (x y z dx dy dz : ℤ)
    (rest : List (ℤ × ℤ × ℤ))
    (hcond : blockNeedsSupport
          (World.getBlock st' (x + dx) (y + dy) (z + dz)) = true
      ∧ ¬ World.hasValidSupport st' (x + dx) (y + dy) (z + dz)
          (World.getBlock st' (x + dx) (y + dy) (z + dz)) = true)
    (hload : (st'.chunks (worldChunkCoord (x + dx))
        (worldChunkCoord (z + dz))).isNone = false) :
    World.breakUnsupGo (k' + 1) st' x y z ((dx, dy, dz) :: rest)
      = match World.breakUnsupGo k'
            (World.writeChunkBlock st' (x + dx) (y + dy) (z + dz) 0)
            (x + dx) (y + dy) (z + dz) ADJACENT_DIRECTIONS with
        | none => none
        | some st'' => World.breakUnsupGo (k' + 1) st'' x y z rest := by
  conv_lhs => rw [World.breakUnsupGo]
  simp only []
  rw [if_pos hcond, if_neg (by simp [hload])]

/-- The cascade walk along the snow column: with the first j cells of
the column already cleared and m = N - j snow blocks remaining above,
fuel m suffices and the walk ends in the fully cleared column state. -/
theorem cascade_chain (st : WorldState) (x0 z0 y0 : ℤ) (N : ℕ)
    (hl : (st.chunks (worldChunkCoord x0) (worldChunkCoord z0)).isSome)
    (hy0 : 0 ≤ y0) (hyN : y0 + (N : ℤ) < 64)
    (hsnow : ∀ i : ℕ, 1 ≤ i → i ≤ N →
      World.getBlock st x0 (y0 + (i : ℤ)) z0 = 9)
    (htop : World.getBlock st x0 (y0 + (N : ℤ) + 1) z0 ≠ 9)
    (hbot : World.getBlock st x0 (y0 - 1) z0 ≠ 9)
    (hlat : ∀ i : ℕ, i ≤ N →
      World.getBlock st (x0 + 1) (y0 + (i : ℤ)) z0 ≠ 9
      ∧ World.getBlock st (x0 - 1) (y0 + (i : ℤ)) z0 ≠ 9
      ∧ World.getBlock st x0 (y0 + (i : ℤ)) (z0 + 1) ≠ 9
      ∧ World.getBlock st x0 (y0 + (i : ℤ)) (z0 - 1) ≠ 9) :
    ∀ m j k : ℕ, j + m = N → m ≤ k →
      World.breakUnsupGo k (clearColumn st x0 z0 y0 j) x0 (y0 + (j : ℤ)) z0
        ADJACENT_DIRECTIONS = some (clearColumn st x0 z0 y0 N) := by
  intro m
  induction m with
  | zero =>
      intro j k hjm hk
      have hj : j = N := by omega
      subst hj
      have hcol := clearColumn_getBlock st x0 z0 y0 j hl hy0 hyN
      apply breakUnsupGo_skip
      intro d hd
      fin_cases hd
      · -- (0, 1, 0): above the top of the chain
        apply not_cascade_cond
        rw [hcol, if_neg (by push_cast; omega)]
        intro hv
        apply htop
        rw [← hv]
        norm_num [sub_eq_add_neg]
      · -- (0, -1, 0): below the broken block, or a cleared cell
        apply not_cascade_cond
        rw [hcol]
        by_cases hj1 : 1 ≤ j
        · rw [if_pos (by push_cast; omega)]
          omega
        · have hj0 : j = 0 := by omega
          subst hj0
          rw [if_neg (by push_cast; omega)]
          intro hv
          apply hbot
          rw [← hv]
          norm_num [sub_eq_add_neg]
      · -- (1, 0, 0)
        apply not_cascade_cond
        rw [hcol, if_neg (by push_cast; omega)]
        intro hv
        apply (hlat j le_rfl).1
        rw [← hv]
        norm_num [sub_eq_add_neg]
      · -- (-1, 0, 0)
        apply not_cascade_cond
        rw [hcol, if_neg (by push_cast; omega)]
        intro hv
        apply (hlat j le_rfl).2.1
        rw [← hv]
        norm_num [sub_eq_add_neg]
      · -- (0, 0, 1)
        apply not_cascade_cond
        rw [hcol, if_neg (by push_cast; omega)]
        intro hv
        apply (hlat j le_rfl).2.2.1
        rw [← hv]
        norm_num [sub_eq_add_neg]
      · -- (0, 0, -1)
        apply not_cascade_cond
        rw [hcol, if_neg (by push_cast; omega)]
        intro hv
        apply (hlat j le_rfl).2.2.2
        rw [← hv]
        norm_num [sub_eq_add_neg]
  | succ m ih =>
      intro j k hjm hk
      cases k with
      | zero => omega
      | succ k' =>
          have hyj : y0 + (j : ℤ) < 64 := by omega
          have hcol := clearColumn_getBlock st x0 z0 y0 j hl hy0 hyj
          have hup : World.getBlock (clearColumn st x0 z0 y0 j) x0
              (y0 + (j : ℤ) + 1) z0 = 9 := by
            rw [hcol, if_neg (by omega)]
            have hs := hsnow (j + 1) (by omega) (by omega)
            rw [show y0 + ((j + 1 : ℕ) : ℤ) = y0 + (j : ℤ) + 1 by
              push_cast; ring] at hs
            exact hs
          have hbelow : World.getBlock (clearColumn st x0 z0 y0 j) x0
              (y0 + (j : ℤ)) z0 = 0 := by
            rw [hcol, if_pos (by omega)]
          have hsup : World.hasValidSupport (clearColumn st x0 z0 y0 j) x0
              (y0 + (j : ℤ) + 1) z0 9 = false := by
            unfold World.hasValidSupport
            rw [getBlockSupportDirections_snow]
            simp only [List.any_cons, List.any_nil, Bool.or_false]
            norm_num [sub_eq_add_neg]
            rw [hbelow]
            decide
          have hload : ((clearColumn st x0 z0 y0 j).chunks (worldChunkCoord x0)
              (worldChunkCoord z0)).isNone = false := by
            have hS := clearColumn_isSome st x0 z0 y0 j (worldChunkCoord x0)
              (worldChunkCoord z0)
            rw [hl] at hS
            cases hOpt : (clearColumn st x0 z0 y0 j).chunks (worldChunkCoord x0)
                (worldChunkCoord z0) with
            | none => rw [hOpt] at hS; simp at hS
            | some c => rfl
          have hInner : World.breakUnsupGo k' (clearColumn st x0 z0 y0 (j + 1))
              x0 (y0 + (j : ℤ) + 1) z0 ADJACENT_DIRECTIONS
              = some (clearColumn st x0 z0 y0 N) := by
            have hih := ih (j + 1) k' (by omega) (by omega)
            rw [show y0 + ((j + 1 : ℕ) : ℤ) = y0 + (j : ℤ) + 1 by
              push_cast; ring] at hih
            exact hih
          rw [show ADJACENT_DIRECTIONS
              = ((0 : ℤ), (1 : ℤ), (0 : ℤ)) :: [((0 : ℤ), (-1 : ℤ), (0 : ℤ)),
                ((1 : ℤ), (0 : ℤ), (0 : ℤ)), ((-1 : ℤ), (0 : ℤ), (0 : ℤ)),
                ((0 : ℤ), (0 : ℤ), (1 : ℤ)), ((0 : ℤ), (0 : ℤ), (-1 : ℤ))]
              from rfl]
          rw [breakUnsupGo_step k' (clearColumn st x0 z0 y0 j) x0
            (y0 + (j : ℤ)) z0 0 1 0 _
            ⟨by rw [show x0 + 0 = x0 from add_zero x0,
                show z0 + 0 = z0 from add_zero z0,
                show y0 + (j : ℤ) + 1 = y0 + (j : ℤ) + 1 from rfl, hup]; decide,
              by rw [show x0 + 0 = x0 from add_zero x0,
                show z0 + 0 = z0 from add_zero z0, hup, hsup]; decide⟩
            (by rw [show x0 + 0 = x0 from add_zero x0,
              show z0 + 0 = z0 from add_zero z0]; exact hload)]
          simp only [add_zero]
          have hw : World.writeChunkBlock (clearColumn st x0 z0 y0 j) x0
              (y0 + (j : ℤ) + 1) z0 0 = clearColumn st x0 z0 y0 (j + 1) := rfl
          rw [hw, hInner]
          simp only []
          have hcolN := clearColumn_getBlock st x0 z0 y0 N hl hy0 hyN
          apply breakUnsupGo_skip
          intro d hd
          fin_cases hd
          · -- (0, -1, 0): the just-broken cell below, or the block under
            -- the original target
            apply not_cascade_cond
            rw [hcolN]
            by_cases hj1 : 1 ≤ j
            · rw [if_pos (by push_cast; omega)]
              omega
            · have hj0 : j = 0 := by omega
              subst hj0
              rw [if_neg (by push_cast; omega)]
              intro hv
              apply hbot
              rw [← hv]
              norm_num [sub_eq_add_neg]
          · -- (1, 0, 0)
            apply not_cascade_cond
            rw [hcolN, if_neg (by push_cast; omega)]
            intro hv
            apply (hlat j (by omega)).1
            rw [← hv]
            norm_num [sub_eq_add_neg]
          · -- (-1, 0, 0)
            apply not_cascade_cond
            rw [hcolN, if_neg (by push_cast; omega)]
            intro hv
            apply (hlat j (by omega)).2.1
            rw [← hv]
            norm_num [sub_eq_add_neg]
          · -- (0, 0, 1)
            apply not_cascade_cond
            rw [hcolN, if_neg (by push_cast; omega)]
            intro hv
            apply (hlat j (by omega)).2.2.1
            rw [← hv]
            norm_num [sub_eq_add_neg]
          · -- (0, 0, -1)
            apply not_cascade_cond
            rw [hcolN, if_neg (by push_cast; omega)]
            intro hv
            apply (hlat j (by omega)).2.2.2
            rw [← hv]
            norm_num [sub_eq_add_neg]

/-- C1: breaking the sole support of a column of N stacked
support-dependent (SNOW) blocks with World.setBlock removes exactly
those N blocks (together with the deliberately broken target), changes
no other voxel, and the cascade terminates for every fuel bound of at
least N - in particular for the fully support-dependent column. The
hypotheses state the scenario: the column chunk is loaded, the column
lies in the vertical range, cells y0+1 .. y0+N hold SNOW, and the six
face-neighbors of the column outside it are not support-dependent
blocks. -/
theorem c1_support_cascade (st : WorldState) (x0 z0 y0 : ℤ) (N fuel : ℕ)
    (hfuel : N ≤ fuel)
    (hl : (st.chunks (worldChunkCoord x0) (worldChunkCoord z0)).isSome)
    (hy0 : 0 ≤ y0) (hyN : y0 + (N : ℤ) < 64)
    (hsnow : ∀ i : ℕ, 1 ≤ i → i ≤ N →
      World.getBlock st x0 (y0 + (i : ℤ)) z0 = 9)
    (htop : World.getBlock st x0 (y0 + (N : ℤ) + 1) z0 ≠ 9)
    (hbot : World.getBlock st x0 (y0 - 1) z0 ≠ 9)
    (hlat : ∀ i : ℕ, i ≤ N →
      World.getBlock st (x0 + 1) (y0 + (i : ℤ)) z0 ≠ 9
      ∧ World.getBlock st (x0 - 1) (y0 + (i : ℤ)) z0 ≠ 9
      ∧ World.getBlock st x0 (y0 + (i : ℤ)) (z0 + 1) ≠ 9
      ∧ World.getBlock st x0 (y0 + (i : ℤ)) (z0 - 1) ≠ 9) :
    World.setBlock fuel st x0 y0 z0 0 = some (clearColumn st x0 z0 y0 N)
    ∧ ∀ qx qy qz : ℤ,
        World.getBlock (clearColumn st x0 z0 y0 N) qx qy qz
          = if qx = x0 ∧ qz = z0 ∧ y0 ≤ qy ∧ qy ≤ y0 + (N : ℤ) then 0
            else World.getBlock st qx qy qz := by
  constructor
  · obtain ⟨c, hC⟩ : ∃ c, st.chunks (worldChunkCoord x0)
        (worldChunkCoord z0) = some c := Option.isSome_iff_exists.mp hl
    unfold World.setBlock
    rw [hC]
    simp only [if_true]
    unfold World.breakUnsupportedBlocks
    have hchain := cascade_chain st x0 z0 y0 N hl hy0 hyN hsnow htop hbot
      hlat N 0 fuel (by omega) hfuel
    rw [show y0 + ((0 : ℕ) : ℤ) = y0 by push_cast; ring] at hchain
    exact hchain
  · exact fun qx qy qz => clearColumn_getBlock st x0 z0 y0 N hl hy0 hyN qx qy qz

/-- Chunk (0,0): STONE ground at (5,9,5), STONE support at (5,10,5),
SNOW column at (5,11,5) and (5,12,5). -/
def chunkC1 : Chunk :=
  ⟨0, 0, fun i =>
    if i = getIndex 5 9 5 then 3
    else if i = getIndex 5 10 5 then 3
    else if i = getIndex 5 11 5 then 9
    else if i = getIndex 5 12 5 then 9
    else 0, false⟩

def worldC1 : WorldState :=
  ⟨fun a b => if a = 0 ∧ b = 0 then some chunkC1 else none,
    TerrainGen.setSeed 1⟩

theorem c1_witness :
    ((2 : ℕ) ≤ 2
      ∧ (worldC1.chunks (worldChunkCoord 5) (worldChunkCoord 5)).isSome = true
      ∧ (0 : ℤ) ≤ 10 ∧ (10 : ℤ) + ((2 : ℕ) : ℤ) < 64
      ∧ (∀ i : ℕ, 1 ≤ i → i ≤ 2 →
          World.getBlock worldC1 5 (10 + (i : ℤ)) 5 = 9)
      ∧ World.getBlock worldC1 5 (10 + ((2 : ℕ) : ℤ) + 1) 5 ≠ 9
      ∧ World.getBlock worldC1 5 ((10 : ℤ) - 1) 5 ≠ 9
      ∧ (∀ i : ℕ, i ≤ 2 →
          World.getBlock worldC1 ((5 : ℤ) + 1) (10 + (i : ℤ)) 5 ≠ 9
          ∧ World.getBlock worldC1 ((5 : ℤ) - 1) (10 + (i : ℤ)) 5 ≠ 9
          ∧ World.getBlock worldC1 5 (10 + (i : ℤ)) ((5 : ℤ) + 1) ≠ 9
          ∧ World.getBlock worldC1 5 (10 + (i : ℤ)) ((5 : ℤ) - 1) ≠ 9))
    ∧ (World.setBlock 2 worldC1 5 10 5 0 = some (clearColumn worldC1 5 5 10 2)
      ∧ ∀ qx qy qz : ℤ,
          World.getBlock (clearColumn worldC1 5 5 10 2) qx qy qz
            = if qx = 5 ∧ qz = 5 ∧ 10 ≤ qy ∧ qy ≤ 10 + ((2 : ℕ) : ℤ) then 0
              else World.getBlock worldC1 qx qy qz) := by
  have hsnow : ∀ i : ℕ, 1 ≤ i → i ≤ 2 →
      World.getBlock worldC1 5 (10 + (i : ℤ)) 5 = 9 := by
    intro i h1 h2
    interval_cases i <;> decide
  have hlat : ∀ i : ℕ, i ≤ 2 →
      World.getBlock worldC1 ((5 : ℤ) + 1) (10 + (i : ℤ)) 5 ≠ 9
      ∧ World.getBlock worldC1 ((5 : ℤ) - 1) (10 + (i : ℤ)) 5 ≠ 9
      ∧ World.getBlock worldC1 5 (10 + (i : ℤ)) ((5 : ℤ) + 1) ≠ 9
      ∧ World.getBlock worldC1 5 (10 + (i : ℤ)) ((5 : ℤ) - 1) ≠ 9 := by
    intro i hi
    interval_cases i <;> exact ⟨by decide, by decide, by decide, by decide⟩
  exact ⟨⟨by decide, by decide, by decide, by decide, hsnow, by decide,
      by decide, hlat⟩,
    c1_support_cascade worldC1 5 5 10 2 2 (by decide) (by decide) (by decide)
      (by decide) hsnow (by decide) (by decide) hlat⟩
